import Mathlib

/-!
Verification of the RFC 2289 one-time-password library (`src/lib.rs`).

The Rust code is shallowly embedded: byte buffers (`[u8; N]`, `Vec<u8>`)
become `List Nat` with values kept below 256 by explicit `% 2^w`
arithmetic where machine overflow matters, `&str` becomes `String`
(its `.as_bytes()` view is the UTF-8 encoding `strBytes`), fallible
functions return `Option`, and mutable loops become structural
recursion or folds.
-/

set_option maxRecDepth 8000

namespace RFC2289

/-- `Iterator::position(pred)` from Rust: index of the first element
satisfying the predicate, if any. -/
def position (p : α → Bool) : List α → Option Nat
  | [] => none
  | a :: as => if p a then some 0 else (position p as).map (· + 1)

/-- One Unicode scalar value encoded to UTF-8 bytes (model of Rust
`str::as_bytes` taken one `char` at a time). -/
def utf8EncodeChar (c : Char) : List Nat :=
  let n := c.toNat
  if n < 128 then [n]
  else if n < 2048 then [192 + n / 64, 128 + n % 64]
  else if n < 65536 then [224 + n / 4096, 128 + n / 64 % 64, 128 + n % 64]
  else [240 + n / 262144, 128 + n / 4096 % 64, 128 + n / 64 % 64, 128 + n % 64]

/-- The UTF-8 bytes of a string: Rust `s.as_bytes()`. -/
def strBytes (s : String) : List Nat := (s.data.map utf8EncodeChar).flatten

/-- Rust `s.len()`: the UTF-8 byte length of a string. -/
def utf8Len (s : String) : Nat := (strBytes s).length

/-- ASCII-only lower-casing of one character, as done bytewise by
`cow_to_ascii_lowercase` (non-ASCII scalars pass through unchanged). -/
def asciiLowerChar (c : Char) : Char :=
  if 65 ≤ c.toNat ∧ c.toNat ≤ 90 then Char.ofNat (c.toNat + 32) else c

/-- Rust `s.cow_to_ascii_lowercase()` from the `cow_utils` crate:
ASCII-only case folding of a string. -/
def cow_to_ascii_lowercase (s : String) : String := String.mk (s.data.map asciiLowerChar)

/-- Rust `char::is_ascii_whitespace`: space, tab, newline, form feed,
carriage return. -/
def isAsciiWs (c : Char) : Bool :=
  c == (' ') || c == ('\t') || c == ('\n') || c == (Char.ofNat 12) || c == ('\r')

/-- Worker for `split_ascii_whitespace`; `acc` is the reversed current
token. -/
def splitAWAux : List Char → List Char → List (List Char)
  | [], acc => if acc.isEmpty then [] else [acc.reverse]
  | c :: cs, acc =>
    if isAsciiWs c then
      if acc.isEmpty then splitAWAux cs [] else acc.reverse :: splitAWAux cs []
    else splitAWAux cs (c :: acc)

/-- Rust `str::split_ascii_whitespace` (on the character list): maximal
runs of non-whitespace, empty tokens never produced. -/
def split_ascii_whitespace (cs : List Char) : List (List Char) := splitAWAux cs []

/-- Rust `str::split(sep)` with a one-character separator: keeps empty
sections, always returns at least one section. -/
def splitChar (sep : Char) : List Char → List (List Char)
  | [] => [[]]
  | c :: cs =>
    if c == sep then [] :: splitChar sep cs
    else
      match splitChar sep cs with
      | t :: ts => (c :: t) :: ts
      | [] => [[c]]

/-- Rust `s.cow_replace(t, "")` for a one-character pattern: delete every
occurrence of the character. -/
def removeChar (t : Char) (cs : List Char) : List Char := cs.filter (fun c => !(c == t))

/-- `2^64`, the modulus of Rust `u64` arithmetic. -/
def U64 : Nat := 18446744073709551616

/-- `2^32`, the modulus of Rust `u32` arithmetic. -/
def M32 : Nat := 4294967296

/-- Bitwise complement on 32-bit words (`!x` on `u32`). -/
def not32 (x : Nat) : Nat := x ^^^ 4294967295

/-- 32-bit rotate left. -/
def rotl32 (x n : Nat) : Nat := ((x <<< n) % M32) ||| (x >>> (32 - n))

/-- `u64::from_be_bytes`: big-endian byte list to integer. -/
def fromBeBytes (bs : List Nat) : Nat := bs.foldl (fun acc b => acc * 256 + b) 0

/-- `u64::to_be_bytes`: integer (below `2^64`) to 8 big-endian bytes. -/
def toBeBytes8 (n : Nat) : List Nat :=
  [n / 72057594037927936 % 256, n / 281474976710656 % 256, n / 1099511627776 % 256,
   n / 4294967296 % 256, n / 16777216 % 256, n / 65536 % 256, n / 256 % 256, n % 256]

/-- Quarter 0 (words 0 to 511) of the standard dictionary. -/
def DICT0 : List String := [
  "A", "ABE", "ACE", "ACT", "AD", "ADA", "ADD", "AGO",
  "AID", "AIM", "AIR", "ALL", "ALP", "AM", "AMY", "AN",
  "ANA", "AND", "ANN", "ANT", "ANY", "APE", "APS", "APT",
  "ARC", "ARE", "ARK", "ARM", "ART", "AS", "ASH", "ASK",
  "AT", "ATE", "AUG", "AUK", "AVE", "AWE", "AWK", "AWL",
  "AWN", "AX", "AYE", "BAD", "BAG", "BAH", "BAM", "BAN",
  "BAR", "BAT", "BAY", "BE", "BED", "BEE", "BEG", "BEN",
  "BET", "BEY", "BIB", "BID", "BIG", "BIN", "BIT", "BOB",
  "BOG", "BON", "BOO", "BOP", "BOW", "BOY", "BUB", "BUD",
  "BUG", "BUM", "BUN", "BUS", "BUT", "BUY", "BY", "BYE",
  "CAB", "CAL", "CAM", "CAN", "CAP", "CAR", "CAT", "CAW",
  "COD", "COG", "COL", "CON", "COO", "COP", "COT", "COW",
  "COY", "CRY", "CUB", "CUE", "CUP", "CUR", "CUT", "DAB",
  "DAD", "DAM", "DAN", "DAR", "DAY", "DEE", "DEL", "DEN",
  "DES", "DEW", "DID", "DIE", "DIG", "DIN", "DIP", "DO",
  "DOE", "DOG", "DON", "DOT", "DOW", "DRY", "DUB", "DUD",
  "DUE", "DUG", "DUN", "EAR", "EAT", "ED", "EEL", "EGG",
  "EGO", "ELI", "ELK", "ELM", "ELY", "EM", "END", "EST",
  "ETC", "EVA", "EVE", "EWE", "EYE", "FAD", "FAN", "FAR",
  "FAT", "FAY", "FED", "FEE", "FEW", "FIB", "FIG", "FIN",
  "FIR", "FIT", "FLO", "FLY", "FOE", "FOG", "FOR", "FRY",
  "FUM", "FUN", "FUR", "GAB", "GAD", "GAG", "GAL", "GAM",
  "GAP", "GAS", "GAY", "GEE", "GEL", "GEM", "GET", "GIG",
  "GIL", "GIN", "GO", "GOT", "GUM", "GUN", "GUS", "GUT",
  "GUY", "GYM", "GYP", "HA", "HAD", "HAL", "HAM", "HAN",
  "HAP", "HAS", "HAT", "HAW", "HAY", "HE", "HEM", "HEN",
  "HER", "HEW", "HEY", "HI", "HID", "HIM", "HIP", "HIS",
  "HIT", "HO", "HOB", "HOC", "HOE", "HOG", "HOP", "HOT",
  "HOW", "HUB", "HUE", "HUG", "HUH", "HUM", "HUT", "I",
  "ICY", "IDA", "IF", "IKE", "ILL", "INK", "INN", "IO",
  "ION", "IQ", "IRA", "IRE", "IRK", "IS", "IT", "ITS",
  "IVY", "JAB", "JAG", "JAM", "JAN", "JAR", "JAW", "JAY",
  "JET", "JIG", "JIM", "JO", "JOB", "JOE", "JOG", "JOT",
  "JOY", "JUG", "JUT", "KAY", "KEG", "KEN", "KEY", "KID",
  "KIM", "KIN", "KIT", "LA", "LAB", "LAC", "LAD", "LAG",
  "LAM", "LAP", "LAW", "LAY", "LEA", "LED", "LEE", "LEG",
  "LEN", "LEO", "LET", "LEW", "LID", "LIE", "LIN", "LIP",
  "LIT", "LO", "LOB", "LOG", "LOP", "LOS", "LOT", "LOU",
  "LOW", "LOY", "LUG", "LYE", "MA", "MAC", "MAD", "MAE",
  "MAN", "MAO", "MAP", "MAT", "MAW", "MAY", "ME", "MEG",
  "MEL", "MEN", "MET", "MEW", "MID", "MIN", "MIT", "MOB",
  "MOD", "MOE", "MOO", "MOP", "MOS", "MOT", "MOW", "MUD",
  "MUG", "MUM", "MY", "NAB", "NAG", "NAN", "NAP", "NAT",
  "NAY", "NE", "NED", "NEE", "NET", "NEW", "NIB", "NIL",
  "NIP", "NIT", "NO", "NOB", "NOD", "NON", "NOR", "NOT",
  "NOV", "NOW", "NU", "NUN", "NUT", "O", "OAF", "OAK",
  "OAR", "OAT", "ODD", "ODE", "OF", "OFF", "OFT", "OH",
  "OIL", "OK", "OLD", "ON", "ONE", "OR", "ORB", "ORE",
  "ORR", "OS", "OTT", "OUR", "OUT", "OVA", "OW", "OWE",
  "OWL", "OWN", "OX", "PA", "PAD", "PAL", "PAM", "PAN",
  "PAP", "PAR", "PAT", "PAW", "PAY", "PEA", "PEG", "PEN",
  "PEP", "PER", "PET", "PEW", "PHI", "PI", "PIE", "PIN",
  "PIT", "PLY", "PO", "POD", "POE", "POP", "POT", "POW",
  "PRO", "PRY", "PUB", "PUG", "PUN", "PUP", "PUT", "QUO",
  "RAG", "RAM", "RAN", "RAP", "RAT", "RAW", "RAY", "REB",
  "RED", "REP", "RET", "RIB", "RID", "RIG", "RIM", "RIO",
  "RIP", "ROB", "ROD", "ROE", "RON", "ROT", "ROW", "ROY",
  "RUB", "RUE", "RUG", "RUM", "RUN", "RYE", "SAC", "SAD",
  "SAG", "SAL", "SAM", "SAN", "SAP", "SAT", "SAW", "SAY",
  "SEA", "SEC", "SEE", "SEN", "SET", "SEW", "SHE", "SHY",
  "SIN", "SIP", "SIR", "SIS", "SIT", "SKI", "SKY", "SLY",
  "SO", "SOB", "SOD", "SON", "SOP", "SOW", "SOY", "SPA",
  "SPY", "SUB", "SUD", "SUE", "SUM", "SUN", "SUP", "TAB",
  "TAD", "TAG", "TAN", "TAP", "TAR", "TEA", "TED", "TEE"]

/-- Quarter 1 (words 512 to 1023) of the standard dictionary. -/
def DICT1 : List String := [
  "TEN", "THE", "THY", "TIC", "TIE", "TIM", "TIN", "TIP",
  "TO", "TOE", "TOG", "TOM", "TON", "TOO", "TOP", "TOW",
  "TOY", "TRY", "TUB", "TUG", "TUM", "TUN", "TWO", "UN",
  "UP", "US", "USE", "VAN", "VAT", "VET", "VIE", "WAD",
  "WAG", "WAR", "WAS", "WAY", "WE", "WEB", "WED", "WEE",
  "WET", "WHO", "WHY", "WIN", "WIT", "WOK", "WON", "WOO",
  "WOW", "WRY", "WU", "YAM", "YAP", "YAW", "YE", "YEA",
  "YES", "YET", "YOU", "ABED", "ABEL", "ABET", "ABLE", "ABUT",
  "ACHE", "ACID", "ACME", "ACRE", "ACTA", "ACTS", "ADAM", "ADDS",
  "ADEN", "AFAR", "AFRO", "AGEE", "AHEM", "AHOY", "AIDA", "AIDE",
  "AIDS", "AIRY", "AJAR", "AKIN", "ALAN", "ALEC", "ALGA", "ALIA",
  "ALLY", "ALMA", "ALOE", "ALSO", "ALTO", "ALUM", "ALVA", "AMEN",
  "AMES", "AMID", "AMMO", "AMOK", "AMOS", "AMRA", "ANDY", "ANEW",
  "ANNA", "ANNE", "ANTE", "ANTI", "AQUA", "ARAB", "ARCH", "AREA",
  "ARGO", "ARID", "ARMY", "ARTS", "ARTY", "ASIA", "ASKS", "ATOM",
  "AUNT", "AURA", "AUTO", "AVER", "AVID", "AVIS", "AVON", "AVOW",
  "AWAY", "AWRY", "BABE", "BABY", "BACH", "BACK", "BADE", "BAIL",
  "BAIT", "BAKE", "BALD", "BALE", "BALI", "BALK", "BALL", "BALM",
  "BAND", "BANE", "BANG", "BANK", "BARB", "BARD", "BARE", "BARK",
  "BARN", "BARR", "BASE", "BASH", "BASK", "BASS", "BATE", "BATH",
  "BAWD", "BAWL", "BEAD", "BEAK", "BEAM", "BEAN", "BEAR", "BEAT",
  "BEAU", "BECK", "BEEF", "BEEN", "BEER", "BEET", "BELA", "BELL",
  "BELT", "BEND", "BENT", "BERG", "BERN", "BERT", "BESS", "BEST",
  "BETA", "BETH", "BHOY", "BIAS", "BIDE", "BIEN", "BILE", "BILK",
  "BILL", "BIND", "BING", "BIRD", "BITE", "BITS", "BLAB", "BLAT",
  "BLED", "BLEW", "BLOB", "BLOC", "BLOT", "BLOW", "BLUE", "BLUM",
  "BLUR", "BOAR", "BOAT", "BOCA", "BOCK", "BODE", "BODY", "BOGY",
  "BOHR", "BOIL", "BOLD", "BOLO", "BOLT", "BOMB", "BONA", "BOND",
  "BONE", "BONG", "BONN", "BONY", "BOOK", "BOOM", "BOON", "BOOT",
  "BORE", "BORG", "BORN", "BOSE", "BOSS", "BOTH", "BOUT", "BOWL",
  "BOYD", "BRAD", "BRAE", "BRAG", "BRAN", "BRAY", "BRED", "BREW",
  "BRIG", "BRIM", "BROW", "BUCK", "BUDD", "BUFF", "BULB", "BULK",
  "BULL", "BUNK", "BUNT", "BUOY", "BURG", "BURL", "BURN", "BURR",
  "BURT", "BURY", "BUSH", "BUSS", "BUST", "BUSY", "BYTE", "CADY",
  "CAFE", "CAGE", "CAIN", "CAKE", "CALF", "CALL", "CALM", "CAME",
  "CANE", "CANT", "CARD", "CARE", "CARL", "CARR", "CART", "CASE",
  "CASH", "CASK", "CAST", "CAVE", "CEIL", "CELL", "CENT", "CERN",
  "CHAD", "CHAR", "CHAT", "CHAW", "CHEF", "CHEN", "CHEW", "CHIC",
  "CHIN", "CHOU", "CHOW", "CHUB", "CHUG", "CHUM", "CITE", "CITY",
  "CLAD", "CLAM", "CLAN", "CLAW", "CLAY", "CLOD", "CLOG", "CLOT",
  "CLUB", "CLUE", "COAL", "COAT", "COCA", "COCK", "COCO", "CODA",
  "CODE", "CODY", "COED", "COIL", "COIN", "COKE", "COLA", "COLD",
  "COLT", "COMA", "COMB", "COME", "COOK", "COOL", "COON", "COOT",
  "CORD", "CORE", "CORK", "CORN", "COST", "COVE", "COWL", "CRAB",
  "CRAG", "CRAM", "CRAY", "CREW", "CRIB", "CROW", "CRUD", "CUBA",
  "CUBE", "CUFF", "CULL", "CULT", "CUNY", "CURB", "CURD", "CURE",
  "CURL", "CURT", "CUTS", "DADE", "DALE", "DAME", "DANA", "DANE",
  "DANG", "DANK", "DARE", "DARK", "DARN", "DART", "DASH", "DATA",
  "DATE", "DAVE", "DAVY", "DAWN", "DAYS", "DEAD", "DEAF", "DEAL",
  "DEAN", "DEAR", "DEBT", "DECK", "DEED", "DEEM", "DEER", "DEFT",
  "DEFY", "DELL", "DENT", "DENY", "DESK", "DIAL", "DICE", "DIED",
  "DIET", "DIME", "DINE", "DING", "DINT", "DIRE", "DIRT", "DISC",
  "DISH", "DISK", "DIVE", "DOCK", "DOES", "DOLE", "DOLL", "DOLT",
  "DOME", "DONE", "DOOM", "DOOR", "DORA", "DOSE", "DOTE", "DOUG",
  "DOUR", "DOVE", "DOWN", "DRAB", "DRAG", "DRAM", "DRAW", "DREW",
  "DRUB", "DRUG", "DRUM", "DUAL", "DUCK", "DUCT", "DUEL", "DUET",
  "DUKE", "DULL", "DUMB", "DUNE", "DUNK", "DUSK", "DUST", "DUTY",
  "EACH", "EARL", "EARN", "EASE", "EAST", "EASY", "EBEN", "ECHO",
  "EDDY", "EDEN", "EDGE", "EDGY", "EDIT", "EDNA", "EGAN", "ELAN",
  "ELBA", "ELLA", "ELSE", "EMIL", "EMIT", "EMMA", "ENDS", "ERIC",
  "EROS", "EVEN", "EVER", "EVIL", "EYED", "FACE", "FACT", "FADE",
  "FAIL", "FAIN", "FAIR", "FAKE", "FALL", "FAME", "FANG", "FARM",
  "FAST", "FATE", "FAWN", "FEAR", "FEAT", "FEED", "FEEL", "FEET",
  "FELL", "FELT", "FEND", "FERN", "FEST", "FEUD", "FIEF", "FIGS"]

/-- Quarter 2 (words 1024 to 1535) of the standard dictionary. -/
def DICT2 : List String := [
  "FILE", "FILL", "FILM", "FIND", "FINE", "FINK", "FIRE", "FIRM",
  "FISH", "FISK", "FIST", "FITS", "FIVE", "FLAG", "FLAK", "FLAM",
  "FLAT", "FLAW", "FLEA", "FLED", "FLEW", "FLIT", "FLOC", "FLOG",
  "FLOW", "FLUB", "FLUE", "FOAL", "FOAM", "FOGY", "FOIL", "FOLD",
  "FOLK", "FOND", "FONT", "FOOD", "FOOL", "FOOT", "FORD", "FORE",
  "FORK", "FORM", "FORT", "FOSS", "FOUL", "FOUR", "FOWL", "FRAU",
  "FRAY", "FRED", "FREE", "FRET", "FREY", "FROG", "FROM", "FUEL",
  "FULL", "FUME", "FUND", "FUNK", "FURY", "FUSE", "FUSS", "GAFF",
  "GAGE", "GAIL", "GAIN", "GAIT", "GALA", "GALE", "GALL", "GALT",
  "GAME", "GANG", "GARB", "GARY", "GASH", "GATE", "GAUL", "GAUR",
  "GAVE", "GAWK", "GEAR", "GELD", "GENE", "GENT", "GERM", "GETS",
  "GIBE", "GIFT", "GILD", "GILL", "GILT", "GINA", "GIRD", "GIRL",
  "GIST", "GIVE", "GLAD", "GLEE", "GLEN", "GLIB", "GLOB", "GLOM",
  "GLOW", "GLUE", "GLUM", "GLUT", "GOAD", "GOAL", "GOAT", "GOER",
  "GOES", "GOLD", "GOLF", "GONE", "GONG", "GOOD", "GOOF", "GORE",
  "GORY", "GOSH", "GOUT", "GOWN", "GRAB", "GRAD", "GRAY", "GREG",
  "GREW", "GREY", "GRID", "GRIM", "GRIN", "GRIT", "GROW", "GRUB",
  "GULF", "GULL", "GUNK", "GURU", "GUSH", "GUST", "GWEN", "GWYN",
  "HAAG", "HAAS", "HACK", "HAIL", "HAIR", "HALE", "HALF", "HALL",
  "HALO", "HALT", "HAND", "HANG", "HANK", "HANS", "HARD", "HARK",
  "HARM", "HART", "HASH", "HAST", "HATE", "HATH", "HAUL", "HAVE",
  "HAWK", "HAYS", "HEAD", "HEAL", "HEAR", "HEAT", "HEBE", "HECK",
  "HEED", "HEEL", "HEFT", "HELD", "HELL", "HELM", "HERB", "HERD",
  "HERE", "HERO", "HERS", "HESS", "HEWN", "HICK", "HIDE", "HIGH",
  "HIKE", "HILL", "HILT", "HIND", "HINT", "HIRE", "HISS", "HIVE",
  "HOBO", "HOCK", "HOFF", "HOLD", "HOLE", "HOLM", "HOLT", "HOME",
  "HONE", "HONK", "HOOD", "HOOF", "HOOK", "HOOT", "HORN", "HOSE",
  "HOST", "HOUR", "HOVE", "HOWE", "HOWL", "HOYT", "HUCK", "HUED",
  "HUFF", "HUGE", "HUGH", "HUGO", "HULK", "HULL", "HUNK", "HUNT",
  "HURD", "HURL", "HURT", "HUSH", "HYDE", "HYMN", "IBIS", "ICON",
  "IDEA", "IDLE", "IFFY", "INCA", "INCH", "INTO", "IONS", "IOTA",
  "IOWA", "IRIS", "IRMA", "IRON", "ISLE", "ITCH", "ITEM", "IVAN",
  "JACK", "JADE", "JAIL", "JAKE", "JANE", "JAVA", "JEAN", "JEFF",
  "JERK", "JESS", "JEST", "JIBE", "JILL", "JILT", "JIVE", "JOAN",
  "JOBS", "JOCK", "JOEL", "JOEY", "JOHN", "JOIN", "JOKE", "JOLT",
  "JOVE", "JUDD", "JUDE", "JUDO", "JUDY", "JUJU", "JUKE", "JULY",
  "JUNE", "JUNK", "JUNO", "JURY", "JUST", "JUTE", "KAHN", "KALE",
  "KANE", "KANT", "KARL", "KATE", "KEEL", "KEEN", "KENO", "KENT",
  "KERN", "KERR", "KEYS", "KICK", "KILL", "KIND", "KING", "KIRK",
  "KISS", "KITE", "KLAN", "KNEE", "KNEW", "KNIT", "KNOB", "KNOT",
  "KNOW", "KOCH", "KONG", "KUDO", "KURD", "KURT", "KYLE", "LACE",
  "LACK", "LACY", "LADY", "LAID", "LAIN", "LAIR", "LAKE", "LAMB",
  "LAME", "LAND", "LANE", "LANG", "LARD", "LARK", "LASS", "LAST",
  "LATE", "LAUD", "LAVA", "LAWN", "LAWS", "LAYS", "LEAD", "LEAF",
  "LEAK", "LEAN", "LEAR", "LEEK", "LEER", "LEFT", "LEND", "LENS",
  "LENT", "LEON", "LESK", "LESS", "LEST", "LETS", "LIAR", "LICE",
  "LICK", "LIED", "LIEN", "LIES", "LIEU", "LIFE", "LIFT", "LIKE",
  "LILA", "LILT", "LILY", "LIMA", "LIMB", "LIME", "LIND", "LINE",
  "LINK", "LINT", "LION", "LISA", "LIST", "LIVE", "LOAD", "LOAF",
  "LOAM", "LOAN", "LOCK", "LOFT", "LOGE", "LOIS", "LOLA", "LONE",
  "LONG", "LOOK", "LOON", "LOOT", "LORD", "LORE", "LOSE", "LOSS",
  "LOST", "LOUD", "LOVE", "LOWE", "LUCK", "LUCY", "LUGE", "LUKE",
  "LULU", "LUND", "LUNG", "LURA", "LURE", "LURK", "LUSH", "LUST",
  "LYLE", "LYNN", "LYON", "LYRA", "MACE", "MADE", "MAGI", "MAID",
  "MAIL", "MAIN", "MAKE", "MALE", "MALI", "MALL", "MALT", "MANA",
  "MANN", "MANY", "MARC", "MARE", "MARK", "MARS", "MART", "MARY",
  "MASH", "MASK", "MASS", "MAST", "MATE", "MATH", "MAUL", "MAYO",
  "MEAD", "MEAL", "MEAN", "MEAT", "MEEK", "MEET", "MELD", "MELT",
  "MEMO", "MEND", "MENU", "MERT", "MESH", "MESS", "MICE", "MIKE",
  "MILD", "MILE", "MILK", "MILL", "MILT", "MIMI", "MIND", "MINE",
  "MINI", "MINK", "MINT", "MIRE", "MISS", "MIST", "MITE", "MITT",
  "MOAN", "MOAT", "MOCK", "MODE", "MOLD", "MOLE", "MOLL", "MOLT",
  "MONA", "MONK", "MONT", "MOOD", "MOON", "MOOR", "MOOT", "MORE",
  "MORN", "MORT", "MOSS", "MOST", "MOTH", "MOVE", "MUCH", "MUCK"]

/-- Quarter 3 (words 1536 to 2047) of the standard dictionary. -/
def DICT3 : List String := [
  "MUDD", "MUFF", "MULE", "MULL", "MURK", "MUSH", "MUST", "MUTE",
  "MUTT", "MYRA", "MYTH", "NAGY", "NAIL", "NAIR", "NAME", "NARY",
  "NASH", "NAVE", "NAVY", "NEAL", "NEAR", "NEAT", "NECK", "NEED",
  "NEIL", "NELL", "NEON", "NERO", "NESS", "NEST", "NEWS", "NEWT",
  "NIBS", "NICE", "NICK", "NILE", "NINA", "NINE", "NOAH", "NODE",
  "NOEL", "NOLL", "NONE", "NOOK", "NOON", "NORM", "NOSE", "NOTE",
  "NOUN", "NOVA", "NUDE", "NULL", "NUMB", "OATH", "OBEY", "OBOE",
  "ODIN", "OHIO", "OILY", "OINT", "OKAY", "OLAF", "OLDY", "OLGA",
  "OLIN", "OMAN", "OMEN", "OMIT", "ONCE", "ONES", "ONLY", "ONTO",
  "ONUS", "ORAL", "ORGY", "OSLO", "OTIS", "OTTO", "OUCH", "OUST",
  "OUTS", "OVAL", "OVEN", "OVER", "OWLY", "OWNS", "QUAD", "QUIT",
  "QUOD", "RACE", "RACK", "RACY", "RAFT", "RAGE", "RAID", "RAIL",
  "RAIN", "RAKE", "RANK", "RANT", "RARE", "RASH", "RATE", "RAVE",
  "RAYS", "READ", "REAL", "REAM", "REAR", "RECK", "REED", "REEF",
  "REEK", "REEL", "REID", "REIN", "RENA", "REND", "RENT", "REST",
  "RICE", "RICH", "RICK", "RIDE", "RIFT", "RILL", "RIME", "RING",
  "RINK", "RISE", "RISK", "RITE", "ROAD", "ROAM", "ROAR", "ROBE",
  "ROCK", "RODE", "ROIL", "ROLL", "ROME", "ROOD", "ROOF", "ROOK",
  "ROOM", "ROOT", "ROSA", "ROSE", "ROSS", "ROSY", "ROTH", "ROUT",
  "ROVE", "ROWE", "ROWS", "RUBE", "RUBY", "RUDE", "RUDY", "RUIN",
  "RULE", "RUNG", "RUNS", "RUNT", "RUSE", "RUSH", "RUSK", "RUSS",
  "RUST", "RUTH", "SACK", "SAFE", "SAGE", "SAID", "SAIL", "SALE",
  "SALK", "SALT", "SAME", "SAND", "SANE", "SANG", "SANK", "SARA",
  "SAUL", "SAVE", "SAYS", "SCAN", "SCAR", "SCAT", "SCOT", "SEAL",
  "SEAM", "SEAR", "SEAT", "SEED", "SEEK", "SEEM", "SEEN", "SEES",
  "SELF", "SELL", "SEND", "SENT", "SETS", "SEWN", "SHAG", "SHAM",
  "SHAW", "SHAY", "SHED", "SHIM", "SHIN", "SHOD", "SHOE", "SHOT",
  "SHOW", "SHUN", "SHUT", "SICK", "SIDE", "SIFT", "SIGH", "SIGN",
  "SILK", "SILL", "SILO", "SILT", "SINE", "SING", "SINK", "SIRE",
  "SITE", "SITS", "SITU", "SKAT", "SKEW", "SKID", "SKIM", "SKIN",
  "SKIT", "SLAB", "SLAM", "SLAT", "SLAY", "SLED", "SLEW", "SLID",
  "SLIM", "SLIT", "SLOB", "SLOG", "SLOT", "SLOW", "SLUG", "SLUM",
  "SLUR", "SMOG", "SMUG", "SNAG", "SNOB", "SNOW", "SNUB", "SNUG",
  "SOAK", "SOAR", "SOCK", "SODA", "SOFA", "SOFT", "SOIL", "SOLD",
  "SOME", "SONG", "SOON", "SOOT", "SORE", "SORT", "SOUL", "SOUR",
  "SOWN", "STAB", "STAG", "STAN", "STAR", "STAY", "STEM", "STEW",
  "STIR", "STOW", "STUB", "STUN", "SUCH", "SUDS", "SUIT", "SULK",
  "SUMS", "SUNG", "SUNK", "SURE", "SURF", "SWAB", "SWAG", "SWAM",
  "SWAN", "SWAT", "SWAY", "SWIM", "SWUM", "TACK", "TACT", "TAIL",
  "TAKE", "TALE", "TALK", "TALL", "TANK", "TASK", "TATE", "TAUT",
  "TEAL", "TEAM", "TEAR", "TECH", "TEEM", "TEEN", "TEET", "TELL",
  "TEND", "TENT", "TERM", "TERN", "TESS", "TEST", "THAN", "THAT",
  "THEE", "THEM", "THEN", "THEY", "THIN", "THIS", "THUD", "THUG",
  "TICK", "TIDE", "TIDY", "TIED", "TIER", "TILE", "TILL", "TILT",
  "TIME", "TINA", "TINE", "TINT", "TINY", "TIRE", "TOAD", "TOGO",
  "TOIL", "TOLD", "TOLL", "TONE", "TONG", "TONY", "TOOK", "TOOL",
  "TOOT", "TORE", "TORN", "TOTE", "TOUR", "TOUT", "TOWN", "TRAG",
  "TRAM", "TRAY", "TREE", "TREK", "TRIG", "TRIM", "TRIO", "TROD",
  "TROT", "TROY", "TRUE", "TUBA", "TUBE", "TUCK", "TUFT", "TUNA",
  "TUNE", "TUNG", "TURF", "TURN", "TUSK", "TWIG", "TWIN", "TWIT",
  "ULAN", "UNIT", "URGE", "USED", "USER", "USES", "UTAH", "VAIL",
  "VAIN", "VALE", "VARY", "VASE", "VAST", "VEAL", "VEDA", "VEIL",
  "VEIN", "VEND", "VENT", "VERB", "VERY", "VETO", "VICE", "VIEW",
  "VINE", "VISE", "VOID", "VOLT", "VOTE", "WACK", "WADE", "WAGE",
  "WAIL", "WAIT", "WAKE", "WALE", "WALK", "WALL", "WALT", "WAND",
  "WANE", "WANG", "WANT", "WARD", "WARM", "WARN", "WART", "WASH",
  "WAST", "WATS", "WATT", "WAVE", "WAVY", "WAYS", "WEAK", "WEAL",
  "WEAN", "WEAR", "WEED", "WEEK", "WEIR", "WELD", "WELL", "WELT",
  "WENT", "WERE", "WERT", "WEST", "WHAM", "WHAT", "WHEE", "WHEN",
  "WHET", "WHOA", "WHOM", "WICK", "WIFE", "WILD", "WILL", "WIND",
  "WINE", "WING", "WINK", "WINO", "WIRE", "WISE", "WISH", "WITH",
  "WOLF", "WONT", "WOOD", "WOOL", "WORD", "WORE", "WORK", "WORM",
  "WORN", "WOVE", "WRIT", "WYNN", "YALE", "YANG", "YANK", "YARD",
  "YARN", "YAWL", "YAWN", "YEAH", "YEAR", "YELL", "YOGA", "YOKE"]

/-- The 2048-word standard dictionary of RFC 1760 Appendix D, as the
hard-coded Rust constant (position = 11-bit index). It is one flat array
in the source; here it is written as the concatenation of four quarters
of 512 words so that every concrete computation over it stays within the
kernel's recursion depth. -/
def STANDARD_DICTIONARY : List String := DICT0 ++ (DICT1 ++ (DICT2 ++ DICT3))

/-- `fold_md`'s loop: starting at index `i` (the Rust loop starts at 8 with
its write cursor `j = 0 = i % 8`), perform `n` steps of
`input[i % 8] ^= input[i]`. -/
def fold_md_go (i n : Nat) (input : List Nat) : List Nat :=
  match n with
  | 0 => input
  | n + 1 =>
    fold_md_go (i + 1) n (input.set (i % 8) ((input.getD (i % 8) 0) ^^^ (input.getD i 0)))
  termination_by structural n

/-- Rust `fold_md`: XOR-fold a buffer onto its first 8 bytes in place
(`for i in 8..len { input[j] ^= input[i]; j = (j + 1) % 8 }`, and the
running cursor `j` always equals `i % 8`). -/
def fold_md (input : List Nat) : List Nat := fold_md_go 8 (input.length - 8) input

/-- Rust `slice::swap i j` (simultaneous exchange of two positions). -/
def listSwap (l : List Nat) (i j : Nat) : List Nat :=
  (l.set i (l.getD j 0)).set j (l.getD i 0)

/-- Rust `fold_sha1`: fold the 20-byte digest with `fold_md`, then swap the
byte pairs (0,3), (1,2), (4,7), (5,6). -/
def fold_sha1 (digest : List Nat) : List Nat :=
  listSwap (listSwap (listSwap (listSwap (fold_md digest) 0 3) 1 2) 4 7) 5 6

/-- Rust `calculate_checksum`: per byte, add the four 2-bit groups
(`(n & 0b11) + ((n & 0b1100) >> 2) + ((n & 0b110000) >> 4) + ((n & 0b11000000) >> 6)`),
sum over the 8 bytes (`reduce(+)`, which on a non-empty list is the sum),
and keep the low 2 bits (`& 0b11`). -/
def calculate_checksum (input : List Nat) : Nat :=
  ((input.map (fun n =>
    (n &&& 3) + ((n &&& 12) >>> 2) + ((n &&& 48) >>> 4) + ((n &&& 192) >>> 6))).sum) &&& 3

/-- The 11-bit extraction step of `convert_to_word_format`:
`(result & (0b11111111111 << (64 - 11))) >> (64 - 11)`. -/
def topBits (result : Nat) : Nat :=
  (result &&& (2047 <<< 53)) >>> 53

/-- Rust `convert_to_word_format`: view the 8 bytes as a big-endian `u64`,
emit the dictionary word of each of the five leading 11-bit chunks
(shifting left by 11, wrapping, after each), and for the sixth word add the
2-bit checksum to the remaining 9 bits shifted into the top. -/
def convert_to_word_format (result : List Nat) : List String :=
  let checksum := calculate_checksum result
  let r0 := fromBeBytes result
  let w0 := STANDARD_DICTIONARY.getD (topBits r0) ("")
  let r1 := (r0 <<< 11) % U64
  let w1 := STANDARD_DICTIONARY.getD (topBits r1) ("")
  let r2 := (r1 <<< 11) % U64
  let w2 := STANDARD_DICTIONARY.getD (topBits r2) ("")
  let r3 := (r2 <<< 11) % U64
  let w3 := STANDARD_DICTIONARY.getD (topBits r3) ("")
  let r4 := (r3 <<< 11) % U64
  let w4 := STANDARD_DICTIONARY.getD (topBits r4) ("")
  let r5 := (r4 <<< 11) % U64
  let w5 := STANDARD_DICTIONARY.getD (topBits r5 + checksum) ("")
  [w0, w1, w2, w3, w4, w5]

/-- Rust `decode_word_format_with_std_dict`: look up each of the six words
in the standard dictionary (`None` if absent), accumulate 11 bits per word
for the first five (`output <<= 11; output |= bits`, on `u64`), and for the
sixth shift 9 bits in (`output <<= 9; output |= bits / 4`); the low 2 bits
of the sixth index are the transmitted checksum, compared against the
checksum recomputed over the reconstructed bytes. -/
def decode_word_format_with_std_dict (words : List String) : Option (List Nat × Bool) :=
  match words with
  | [word0, word1, word2, word3, word4, word5] =>
    match position (fun w => w == word0) STANDARD_DICTIONARY with
    | none => none
    | some bits0 =>
      match position (fun w => w == word1) STANDARD_DICTIONARY with
      | none => none
      | some bits1 =>
        match position (fun w => w == word2) STANDARD_DICTIONARY with
        | none => none
        | some bits2 =>
          match position (fun w => w == word3) STANDARD_DICTIONARY with
          | none => none
          | some bits3 =>
            match position (fun w => w == word4) STANDARD_DICTIONARY with
            | none => none
            | some bits4 =>
              match position (fun w => w == word5) STANDARD_DICTIONARY with
              | none => none
              | some bits5 =>
                let out1 := ((0 <<< 11) % U64) ||| bits0
                let out2 := ((out1 <<< 11) % U64) ||| bits1
                let out3 := ((out2 <<< 11) % U64) ||| bits2
                let out4 := ((out3 <<< 11) % U64) ||| bits3
                let out5 := ((out4 <<< 11) % U64) ||| bits4
                let out6 := ((out5 <<< 9) % U64) ||| (bits5 / 4)
                let checksum_bits := bits5 % 4
                let output := toBeBytes8 out6
                let checksum := calculate_checksum output
                some (output, checksum_bits == checksum)
  | _ => none

/-!
The hash primitives. The crate delegates to the external `md4`, `md5` and
`sha1_smol` crates; these are the standard MD4 (RFC 1320), MD5 (RFC 1321)
and SHA-1 (FIPS 180) functions, embedded here directly so that the OTP
engine can be evaluated on the published test vectors.
-/

/-- Little-endian 32-bit word `i` of a 64-byte block. -/
def leWord (b : List Nat) (i : Nat) : Nat :=
  b.getD (4 * i) 0 + 256 * b.getD (4 * i + 1) 0 + 65536 * b.getD (4 * i + 2) 0 +
    16777216 * b.getD (4 * i + 3) 0

/-- Big-endian 32-bit word `i` of a 64-byte block. -/
def beWord (b : List Nat) (i : Nat) : Nat :=
  16777216 * b.getD (4 * i) 0 + 65536 * b.getD (4 * i + 1) 0 + 256 * b.getD (4 * i + 2) 0 +
    b.getD (4 * i + 3) 0

/-- A 32-bit word as 4 little-endian bytes. -/
def leBytes4 (w : Nat) : List Nat := [w % 256, w / 256 % 256, w / 65536 % 256, w / 16777216 % 256]

/-- A 32-bit word as 4 big-endian bytes. -/
def beBytes4 (w : Nat) : List Nat := [w / 16777216 % 256, w / 65536 % 256, w / 256 % 256, w % 256]

/-- Merkle–Damgård padding shared by MD4/MD5/SHA-1: a `0x80` byte, zeros to
56 mod 64, then the bit length as 8 bytes (big-endian for SHA-1,
little-endian for MD4/MD5). -/
def padMessage (bigEndianLen : Bool) (msg : List Nat) : List Nat :=
  let L := msg.length
  let padZeros := (119 - L % 64) % 64
  let bits := (L * 8) % U64
  let lenBytes :=
    if bigEndianLen then beBytes4 (bits / M32) ++ beBytes4 (bits % M32)
    else leBytes4 (bits % M32) ++ leBytes4 (bits / M32)
  msg ++ 128 :: (List.replicate padZeros 0 ++ lenBytes)

/-- Split into 64-byte blocks (first argument is recursion fuel, at least
the list length). -/
def chunks64 : Nat → List Nat → List (List Nat)
  | 0, _ => []
  | _, [] => []
  | fuel + 1, l => l.take 64 :: chunks64 fuel (l.drop 64)

/-- The 64 MD5 sine-table constants `T[i]` of RFC 1321. -/
def MD5_K : List Nat :=
  [0xd76aa478, 0xe8c7b756, 0x242070db, 0xc1bdceee, 0xf57c0faf, 0x4787c62a, 0xa8304613, 0xfd469501,
   0x698098d8, 0x8b44f7af, 0xffff5bb1, 0x895cd7be, 0x6b901122, 0xfd987193, 0xa679438e, 0x49b40821,
   0xf61e2562, 0xc040b340, 0x265e5a51, 0xe9b6c7aa, 0xd62f105d, 0x02441453, 0xd8a1e681, 0xe7d3fbc8,
   0x21e1cde6, 0xc33707d6, 0xf4d50d87, 0x455a14ed, 0xa9e3e905, 0xfcefa3f8, 0x676f02d9, 0x8d2a4c8a,
   0xfffa3942, 0x8771f681, 0x6d9d6122, 0xfde5380c, 0xa4beea44, 0x4bdecfa9, 0xf6bb4b60, 0xbebfbc70,
   0x289b7ec6, 0xeaa127fa, 0xd4ef3085, 0x04881d05, 0xd9d4d039, 0xe6db99e5, 0x1fa27cf8, 0xc4ac5665,
   0xf4292244, 0x432aff97, 0xab9423a7, 0xfc93a039, 0x655b59c3, 0x8f0ccc92, 0xffeff47d, 0x85845dd1,
   0x6fa87e4f, 0xfe2ce6e0, 0xa3014314, 0x4e0811a1, 0xf7537e82, 0xbd3af235, 0x2ad7d2bb, 0xeb86d391]

/-- The MD5 per-round left-rotation amounts. -/
def MD5_S : List Nat :=
  [7, 12, 17, 22, 7, 12, 17, 22, 7, 12, 17, 22, 7, 12, 17, 22,
   5, 9, 14, 20, 5, 9, 14, 20, 5, 9, 14, 20, 5, 9, 14, 20,
   4, 11, 16, 23, 4, 11, 16, 23, 4, 11, 16, 23, 4, 11, 16, 23,
   6, 10, 15, 21, 6, 10, 15, 21, 6, 10, 15, 21, 6, 10, 15, 21]

/-- One MD5 compression of a 64-byte block into the 4-word state. -/
def md5Block (st blk : List Nat) : List Nat :=
  let a0 := st.getD 0 0
  let b0 := st.getD 1 0
  let c0 := st.getD 2 0
  let d0 := st.getD 3 0
  let step := fun (s : Nat × Nat × Nat × Nat) (i : Nat) =>
    let (A, B, C, D) := s
    let F :=
      if i < 16 then (B &&& C) ||| ((not32 B) &&& D)
      else if i < 32 then (D &&& B) ||| ((not32 D) &&& C)
      else if i < 48 then (B ^^^ C) ^^^ D
      else C ^^^ (B ||| (not32 D))
    let g :=
      if i < 16 then i
      else if i < 32 then (5 * i + 1) % 16
      else if i < 48 then (3 * i + 5) % 16
      else (7 * i) % 16
    let F2 := (F + A + MD5_K.getD i 0 + leWord blk g) % M32
    (D, (B + rotl32 F2 (MD5_S.getD i 0)) % M32, B, C)
  let r := (List.range 64).foldl step (a0, b0, c0, d0)
  [(a0 + r.1) % M32, (b0 + r.2.1) % M32, (c0 + r.2.2.1) % M32, (d0 + r.2.2.2) % M32]

/-- MD5 of a byte sequence (RFC 1321), little-endian output. -/
def md5Bytes (msg : List Nat) : List Nat :=
  let padded := padMessage false msg
  let final := (chunks64 padded.length padded).foldl md5Block
    [0x67452301, 0xefcdab89, 0x98badcfe, 0x10325476]
  (final.map leBytes4).flatten

/-- Big-endian 32-bit words of a byte list, 4 bytes at a time. -/
def beWords : List Nat → List Nat
  | b0 :: b1 :: b2 :: b3 :: rest => (16777216 * b0 + 65536 * b1 + 256 * b2 + b3) :: beWords rest
  | _ => []

/-- The SHA-1 message schedule, generated from a sliding window of the
last 16 words (`w0` oldest): each new word is
`rotl1 (w[i-3] ^ w[i-8] ^ w[i-14] ^ w[i-16])`. -/
def sha1Sched (n w0 w1 w2 w3 w4 w5 w6 w7 w8 w9 w10 w11 w12 w13 w14 w15 : Nat) :
    List Nat :=
  match n with
  | 0 => []
  | n + 1 =>
    let t := rotl32 (((w13 ^^^ w8) ^^^ w2) ^^^ w0) 1
    t :: sha1Sched n w1 w2 w3 w4 w5 w6 w7 w8 w9 w10 w11 w12 w13 w14 w15 t
  termination_by structural n

/-- The 80 SHA-1 rounds, consuming the schedule word by word; round `i`
selects `f` and the constant `k` by the usual 20-round stages. -/
def sha1Rounds (i : Nat) (sched : List Nat) (a b c d e : Nat) : List Nat :=
  match sched with
  | [] => [a, b, c, d, e]
  | wi :: rest =>
    let f :=
      if i < 20 then (b &&& c) ||| ((not32 b) &&& d)
      else if i < 40 then (b ^^^ c) ^^^ d
      else if i < 60 then ((b &&& c) ||| (b &&& d)) ||| (c &&& d)
      else (b ^^^ c) ^^^ d
    let k :=
      if i < 20 then 0x5A827999
      else if i < 40 then 0x6ED9EBA1
      else if i < 60 then 0x8F1BBCDC
      else 0xCA62C1D6
    let t := ((rotl32 a 5) + f + e + k + wi) % M32
    sha1Rounds (i + 1) rest t a (rotl32 b 30) c d

/-- One SHA-1 compression of a 64-byte block into the 5-word state. -/
def sha1Block (st blk : List Nat) : List Nat :=
  let ws := beWords blk
  let sched := ws ++ sha1Sched 64 (ws.getD 0 0) (ws.getD 1 0) (ws.getD 2 0) (ws.getD 3 0)
    (ws.getD 4 0) (ws.getD 5 0) (ws.getD 6 0) (ws.getD 7 0) (ws.getD 8 0) (ws.getD 9 0)
    (ws.getD 10 0) (ws.getD 11 0) (ws.getD 12 0) (ws.getD 13 0) (ws.getD 14 0) (ws.getD 15 0)
  let r := sha1Rounds 0 sched (st.getD 0 0) (st.getD 1 0) (st.getD 2 0) (st.getD 3 0)
    (st.getD 4 0)
  [(st.getD 0 0 + r.getD 0 0) % M32, (st.getD 1 0 + r.getD 1 0) % M32,
   (st.getD 2 0 + r.getD 2 0) % M32, (st.getD 3 0 + r.getD 3 0) % M32,
   (st.getD 4 0 + r.getD 4 0) % M32]

/-- SHA-1 of a byte sequence (FIPS 180), big-endian output. -/
def sha1Bytes (msg : List Nat) : List Nat :=
  let padded := padMessage true msg
  let final := (chunks64 padded.length padded).foldl sha1Block
    [0x67452301, 0xEFCDAB89, 0x98BADCFE, 0x10325476, 0xC3D2E1F0]
  (final.map beBytes4).flatten

/-- One MD4 compression of a 64-byte block into the 4-word state
(RFC 1320: rounds F, G with `5A827999`, H with `6ED9EBA1`). -/
def md4Block (st blk : List Nat) : List Nat :=
  let a0 := st.getD 0 0
  let b0 := st.getD 1 0
  let c0 := st.getD 2 0
  let d0 := st.getD 3 0
  let r1 := (List.range 16).foldl (fun (s : Nat × Nat × Nat × Nat) i =>
    let (A, B, C, D) := s
    let A2 := rotl32 ((A + ((B &&& C) ||| ((not32 B) &&& D)) + leWord blk i) % M32)
      ([3, 7, 11, 19].getD (i % 4) 0)
    (D, A2, B, C)) (a0, b0, c0, d0)
  let r2 := (List.range 16).foldl (fun (s : Nat × Nat × Nat × Nat) i =>
    let (A, B, C, D) := s
    let A2 := rotl32 ((A + (((B &&& C) ||| (B &&& D)) ||| (C &&& D)) +
      leWord blk ((i % 4) * 4 + i / 4) + 0x5A827999) % M32) ([3, 5, 9, 13].getD (i % 4) 0)
    (D, A2, B, C)) r1
  let r3 := (List.range 16).foldl (fun (s : Nat × Nat × Nat × Nat) i =>
    let (A, B, C, D) := s
    let A2 := rotl32 ((A + ((B ^^^ C) ^^^ D) +
      leWord blk ([0, 8, 4, 12, 2, 10, 6, 14, 1, 9, 5, 13, 3, 11, 7, 15].getD i 0) +
      0x6ED9EBA1) % M32) ([3, 9, 11, 15].getD (i % 4) 0)
    (D, A2, B, C)) r2
  [(a0 + r3.1) % M32, (b0 + r3.2.1) % M32, (c0 + r3.2.2.1) % M32, (d0 + r3.2.2.2) % M32]

/-- MD4 of a byte sequence (RFC 1320), little-endian output. -/
def md4Bytes (msg : List Nat) : List Nat :=
  let padded := padMessage false msg
  let final := (chunks64 padded.length padded).foldl md4Block
    [0x67452301, 0xefcdab89, 0x98badcfe, 0x10325476]
  (final.map leBytes4).flatten

/-- The iteration loop of `calculate_md4_otp`: `count` rounds of hashing the
first 8 bytes of the previous value and folding. -/
def md4OtpIter (n : Nat) (prev_hash : List Nat) : List Nat :=
  match n with
  | 0 => prev_hash
  | n + 1 => md4OtpIter n (fold_md (md4Bytes (prev_hash.take 8)))
  termination_by structural n

/-- Rust `calculate_md4_otp`: hash seed then passphrase, fold, then iterate
`count` times; the result is the first 8 bytes. -/
def calculate_md4_otp (passphrase lowercased_seed : String) (count : Nat) : Option (List Nat) :=
  let digest_bytes := fold_md (md4Bytes (strBytes lowercased_seed ++ strBytes passphrase))
  some ((md4OtpIter count digest_bytes).take 8)

/-- The iteration loop of `calculate_md5_otp`. -/
def md5OtpIter (n : Nat) (prev_hash : List Nat) : List Nat :=
  match n with
  | 0 => prev_hash
  | n + 1 => md5OtpIter n (fold_md (md5Bytes (prev_hash.take 8)))
  termination_by structural n

/-- Rust `calculate_md5_otp`: MD5 of lowercased seed ++ passphrase, folded,
then `count` iterations of MD5-and-fold over the previous 8 bytes. -/
def calculate_md5_otp (passphrase lowercased_seed : String) (count : Nat) : Option (List Nat) :=
  let digest_bytes := fold_md (md5Bytes (strBytes lowercased_seed ++ strBytes passphrase))
  some ((md5OtpIter count digest_bytes).take 8)

/-- The iteration loop of `calculate_sha1_otp` (uses `fold_sha1`). -/
def sha1OtpIter (n : Nat) (prev_hash : List Nat) : List Nat :=
  match n with
  | 0 => prev_hash
  | n + 1 => sha1OtpIter n (fold_sha1 (sha1Bytes (prev_hash.take 8)))
  termination_by structural n

/-- Rust `calculate_sha1_otp`: SHA-1 of lowercased seed ++ passphrase,
folded with `fold_sha1`, then `count` iterations. -/
def calculate_sha1_otp (passphrase lowercased_seed : String) (count : Nat) : Option (List Nat) :=
  let digest_bytes := fold_sha1 (sha1Bytes (strBytes lowercased_seed ++ strBytes passphrase))
  some ((sha1OtpIter count digest_bytes).take 8)

/-- Modelled from the spec (section 4.2, Hash Primitive Adapter): the
`digest::DynDigest` trait object consumed by `calculate_otp_via_digest`.
The crate's own source only drives this external capability interface
(`update` / `finalize_into_reset` / `output_size`), so it is modelled as a
total hash function from input bytes to digest bytes together with its
native output size; per the spec the adapter "cannot fail on well-formed
byte input". -/
structure DynDigest where
  output_size : Nat
  hash : List Nat → List Nat

/-- `finalize_into_reset(out_buffer)`: write the digest into the start of
the caller-supplied buffer, leaving the rest of the buffer unchanged. -/
def writeDigest (buf out : List Nat) : List Nat := out.take buf.length ++ buf.drop out.length

/-- `fold_md(&mut buf[0..sz])`: fold only the leading `sz`-byte slice. -/
def foldSlice (sz : Nat) (l : List Nat) : List Nat := fold_md (l.take sz) ++ l.drop sz

/-- The iteration loop of `calculate_otp_via_digest`: each round resubmits
the previous value truncated to the adapter's native output size,
finalizes into the 64-byte buffer and folds that slice. -/
def viaDigestIter (hasher : DynDigest) (n : Nat) (prev_hash : List Nat) : List Nat :=
  match n with
  | 0 => prev_hash
  | n + 1 =>
    viaDigestIter hasher n
      (foldSlice hasher.output_size
        (writeDigest prev_hash (hasher.hash (prev_hash.take hasher.output_size))))
  termination_by structural n

/-- Rust `calculate_otp_via_digest`: the generic engine over a
`DynDigest`, using a 64-byte zero-initialized output buffer; the prime
step folds the whole buffer, each iteration folds the output-size slice;
the result is the first 8 bytes. -/
def calculate_otp_via_digest (hasher : DynDigest) (passphrase seed : String) (count : Nat) :
    List Nat :=
  let digest_bytes :=
    writeDigest (List.replicate 64 0) (hasher.hash (strBytes seed ++ strBytes passphrase))
  let digest_bytes := fold_md digest_bytes
  (viaDigestIter hasher count digest_bytes).take 8

/-- Rust `calculate_otp`: lower-case the seed, then dispatch on the
algorithm name; unknown names fall through to the optional
`maybe_get_digest` provider, and fail with `None` if it is absent or does
not resolve the name. -/
def calculate_otp (hash_alg passphrase seed : String) (count : Nat)
    (maybe_get_digest : Option (String → Option DynDigest)) : Option (List Nat) :=
  let lowercased_seed := cow_to_ascii_lowercase seed
  if hash_alg = ("md4") then calculate_md4_otp passphrase lowercased_seed count
  else if hash_alg = ("md5") then calculate_md5_otp passphrase lowercased_seed count
  else if hash_alg = ("sha1") then calculate_sha1_otp passphrase lowercased_seed count
  else
    match maybe_get_digest with
    | none => none
    | some get_digest =>
      match get_digest hash_alg with
      | none => none
      | some digest => some (calculate_otp_via_digest digest passphrase lowercased_seed count)

/-- Rust `usize::from_str_radix(_, 10)` digit loop. -/
def parseDigitsGo : List Char → Nat → Option Nat
  | [], acc => some acc
  | c :: cs, acc =>
    if 48 ≤ c.toNat ∧ c.toNat ≤ 57 then parseDigitsGo cs (acc * 10 + (c.toNat - 48))
    else none

/-- Rust `usize::from_str_radix(s, 10)` on a 64-bit platform: an optional
leading `+`, then at least one decimal digit; the value must fit in
`u64` (checked add/mul overflow is equivalent, for base ten, to the final
value exceeding the type). -/
def from_str_radix_10 (cs : List Char) : Option Nat :=
  let digits := match cs with
    | '+' :: rest => rest
    | _ => cs
  if digits.isEmpty then none
  else
    match parseDigitsGo digits 0 with
    | none => none
    | some n => if n < U64 then some n else none

/-- Rust struct `OTPChallenge`. -/
structure OTPChallenge where
  hash_alg : String
  hash_count : Nat
  seed : String
  deriving DecidableEq

/-- Rust `parse_otp_challenge`: length in `[9, 128]` (in bytes), prefix
`otp-`, then the first three whitespace-delimited tokens are algorithm,
decimal count and seed; later tokens are ignored (the loop breaks after
the seed). Tokenization is modelled on the character list: ASCII
whitespace bytes never occur inside a multi-byte UTF-8 character, so
byte-level and character-level splitting agree. -/
def parse_otp_challenge (s : String) : Option OTPChallenge :=
  if utf8Len s < 9 then none
  else if utf8Len s > 128 then none
  else if !(("otp-").data.isPrefixOf s.data) then none
  else
    match split_ascii_whitespace (s.data.drop 4) with
    | tok0 :: rest0 =>
      match rest0 with
      | tok1 :: rest1 =>
        match from_str_radix_10 tok1 with
        | none => none
        | some count =>
          match rest1 with
          | tok2 :: _ => some ⟨String.mk tok0, count, String.mk tok2⟩
          | [] => none
      | [] => none
    | [] => none

/-- Rust enum `HexOrWords`. -/
inductive HexOrWords where
  | Hex : List Nat → HexOrWords
  | Words : String → HexOrWords
  deriving DecidableEq

/-- Rust `HexOrWords::try_into_bytes`: a `Hex` value is returned as is; a
`Words` span must split into exactly six whitespace tokens (a missing
sixth or a present seventh is rejected), decode against the standard
dictionary, and carry a valid checksum. -/
def HexOrWords.try_into_bytes (h : HexOrWords) : Option (List Nat) :=
  match h with
  | .Hex b => some b
  | .Words w =>
    match split_ascii_whitespace w.data with
    | [t0, t1, t2, t3, t4, t5] =>
      match decode_word_format_with_std_dict
        [String.mk t0, String.mk t1, String.mk t2, String.mk t3, String.mk t4, String.mk t5] with
      | none => none
      | some (v, valid_checksum) => if valid_checksum then some v else none
    | _ => none

/-- Rust struct `OTPInit`. -/
structure OTPInit where
  current_otp : HexOrWords
  new_otp : HexOrWords
  new_alg : String
  new_seq_num : Nat
  new_seed : String
  deriving DecidableEq

/-- Rust enum `OTPResponse`. -/
inductive OTPResponse where
  | Init : OTPInit → OTPResponse
  | Current : HexOrWords → OTPResponse
  deriving DecidableEq

/-- One hex digit (`hex` crate). -/
def hexVal (c : Char) : Option Nat :=
  if 48 ≤ c.toNat ∧ c.toNat ≤ 57 then some (c.toNat - 48)
  else if 97 ≤ c.toNat ∧ c.toNat ≤ 102 then some (c.toNat - 87)
  else if 65 ≤ c.toNat ∧ c.toNat ≤ 70 then some (c.toNat - 55)
  else none

/-- Hex pairs to bytes; odd length or an invalid digit fails. -/
def hexBytesGo : List Char → Option (List Nat)
  | [] => some []
  | [_] => none
  | c1 :: c2 :: rest =>
    match hexVal c1 with
    | none => none
    | some hi =>
      match hexVal c2 with
      | none => none
      | some lo =>
        match hexBytesGo rest with
        | none => none
        | some tail => some ((hi * 16 + lo) :: tail)

/-- Rust `<Hex64Bit>::from_hex`: exactly 16 hex digits giving 8 bytes. -/
def from_hex8 (cs : List Char) : Option (List Nat) :=
  match hexBytesGo cs with
  | none => none
  | some bs => if bs.length == 8 then some bs else none

/-- Rust `parse_otp_init_hex` (the text after the `init-hex:` prefix):
exactly three `:`-sections; the outer sections are hex (spaces, then tabs,
stripped) decoding to 8 bytes each; the middle section splits on single
spaces into algorithm, decimal sequence number and seed (later pieces
ignored). -/
def parse_otp_init_hex (cs : List Char) : Option OTPInit :=
  match splitChar (':') cs with
  | [sec0, sec1, sec2] =>
    match from_hex8 (removeChar ('\t') (removeChar (' ') sec0)) with
    | none => none
    | some current_otp =>
    match from_hex8 (removeChar ('\t') (removeChar (' ') sec2)) with
    | none => none
    | some new_otp =>
    match splitChar (' ') sec1 with
    | alg :: rest0 =>
      match rest0 with
      | seqTok :: rest1 =>
        match rest1 with
        | seed :: _ =>
          match from_str_radix_10 seqTok with
          | none => none
          | some n =>
            some ⟨HexOrWords.Hex current_otp, HexOrWords.Hex new_otp, String.mk alg, n,
              String.mk seed⟩
        | [] => none
      | [] => none
    | [] => none
  | _ => none

/-- Rust `parse_otp_init_word`: like `parse_otp_init_hex` but the outer
sections are kept as unparsed word spans. -/
def parse_otp_init_word (cs : List Char) : Option OTPInit :=
  match splitChar (':') cs with
  | [sec0, sec1, sec2] =>
    match splitChar (' ') sec1 with
    | alg :: rest0 =>
      match rest0 with
      | seqTok :: rest1 =>
        match rest1 with
        | seed :: _ =>
          match from_str_radix_10 seqTok with
          | none => none
          | some n =>
            some ⟨HexOrWords.Words (String.mk sec0), HexOrWords.Words (String.mk sec2),
              String.mk alg, n, String.mk seed⟩
        | [] => none
      | [] => none
    | [] => none
  | _ => none

/-- Rust `parse_otp_init`: byte length must lie in `(50, 100]`, then
dispatch on the `init-hex:` / `init-word:` prefix. -/
def parse_otp_init (s : String) : Option OTPInit :=
  if utf8Len s ≤ 50 ∨ utf8Len s > 100 then none
  else if ("init-hex:").data.isPrefixOf s.data then parse_otp_init_hex (s.data.drop 9)
  else if ("init-word:").data.isPrefixOf s.data then parse_otp_init_word (s.data.drop 10)
  else none

/-- Rust `parse_otp_response`: byte length must lie in `[20, 100]`, then
dispatch on the `hex:` / `word:` / `init-hex:` / `init-word:` prefixes;
the init variants call the section parsers directly (without
`parse_otp_init`'s own length bound). -/
def parse_otp_response (s : String) : Option OTPResponse :=
  if utf8Len s < 20 ∨ utf8Len s > 100 then none
  else if ("hex:").data.isPrefixOf s.data then
    match from_hex8 (removeChar ('\t') (removeChar (' ') (s.data.drop 4))) with
    | none => none
    | some h => some (OTPResponse.Current (HexOrWords.Hex h))
  else if ("word:").data.isPrefixOf s.data then
    some (OTPResponse.Current (HexOrWords.Words (String.mk (s.data.drop 5))))
  else if ("init-hex:").data.isPrefixOf s.data then
    (parse_otp_init_hex (s.data.drop 9)).map OTPResponse.Init
  else if ("init-word:").data.isPrefixOf s.data then
    (parse_otp_init_word (s.data.drop 10)).map OTPResponse.Init
  else none

/-!
Specification-side definitions (written from the spec's words, for the
claims that compare the code against an independently stated formula).
-/

/-- The checksum as the spec states it: per byte the four 2-bit groups
(bits 0-1, 2-3, 4-5, 6-7) summed, all partial sums added, modulo 4. -/
def checksumSpecFn (bs : List Nat) : Nat :=
  ((bs.map (fun b => b % 4 + b / 4 % 4 + b / 16 % 4 + b / 64 % 4)).sum) % 4

/-- The fold as the spec states it: the XOR of the buffer entries at
positions `i, i+1, ...` (for `n` positions) that are congruent to `k`
modulo 8. -/
def xorSlice (b : List Nat) (k i n : Nat) : Nat :=
  match n with
  | 0 => 0
  | n + 1 => (if i % 8 == k then b.getD i 0 else 0) ^^^ xorSlice b k (i + 1) n
  termination_by structural n

/-- An injection of dictionary words into numbers that is strictly
increasing in dictionary order (words of length at most 4, shorter words
first within a 4-letter group boundary): used to decide `Nodup` of the
2048-entry dictionary in linear time. -/
def encWord (w : String) : Nat :=
  (w.data.foldl (fun acc c => acc * 256 + c.toNat) 0) * 256 ^ (4 - w.data.length) +
    (if w.data.length == 4 then 1099511627776 else 0)

/-- Strict sortedness of a list of numbers, as a boolean chain check. -/
def sortedStrict : List Nat → Bool
  | [] => true
  | [_] => true
  | a :: b :: rest => decide (a < b) && sortedStrict (b :: rest)


/-! ## Intermediate states of the sha1 OTP iteration for the published
`correct` / count-99 test vector (every third state, used to keep each
kernel evaluation within a bounded recursion depth) -/

/-- The 20-byte folded digest after 0 sha1 OTP iterations of the
primed state for seed `correct`, passphrase `OTP's are good`. -/
def SHA1V0 : List Nat :=
  [213, 31, 62, 153, 191, 142, 111, 11, 157, 74, 191, 136, 59, 166, 52, 225, 184, 143, 171, 58]

/-- The 20-byte folded digest after 3 sha1 OTP iterations of the
primed state for seed `correct`, passphrase `OTP's are good`. -/
def SHA1V3 : List Nat :=
  [209, 8, 218, 233, 126, 237, 177, 121, 99, 251, 199, 136, 193, 8, 186, 208, 100, 244, 37, 165]

/-- The 20-byte folded digest after 6 sha1 OTP iterations of the
primed state for seed `correct`, passphrase `OTP's are good`. -/
def SHA1V6 : List Nat :=
  [169, 2, 189, 188, 227, 45, 181, 69, 113, 244, 5, 229, 217, 0, 37, 45, 64, 173, 102, 42]

/-- The 20-byte folded digest after 9 sha1 OTP iterations of the
primed state for seed `correct`, passphrase `OTP's are good`. -/
def SHA1V9 : List Nat :=
  [195, 242, 182, 80, 106, 209, 132, 15, 199, 169, 194, 86, 173, 203, 105, 119, 117, 26, 0, 68]

/-- The 20-byte folded digest after 12 sha1 OTP iterations of the
primed state for seed `correct`, passphrase `OTP's are good`. -/
def SHA1V12 : List Nat :=
  [237, 196, 19, 192, 84, 104, 119, 181, 49, 226, 130, 126, 32, 222, 142, 71, 115, 23, 236, 21]

/-- The 20-byte folded digest after 15 sha1 OTP iterations of the
primed state for seed `correct`, passphrase `OTP's are good`. -/
def SHA1V15 : List Nat :=
  [209, 186, 223, 132, 126, 21, 228, 106, 127, 236, 190, 101, 242, 124, 149, 136, 85, 86, 143, 237]

/-- The 20-byte folded digest after 18 sha1 OTP iterations of the
primed state for seed `correct`, passphrase `OTP's are good`. -/
def SHA1V18 : List Nat :=
  [236, 162, 255, 171, 134, 228, 247, 201, 31, 28, 158, 152, 20, 213, 160, 251, 122, 57, 102, 102]

/-- The 20-byte folded digest after 21 sha1 OTP iterations of the
primed state for seed `correct`, passphrase `OTP's are good`. -/
def SHA1V21 : List Nat :=
  [125, 235, 107, 12, 65, 230, 49, 254, 207, 184, 16, 148, 215, 112, 13, 252, 221, 238, 252, 61]

/-- The 20-byte folded digest after 24 sha1 OTP iterations of the
primed state for seed `correct`, passphrase `OTP's are good`. -/
def SHA1V24 : List Nat :=
  [1, 170, 254, 65, 55, 79, 133, 4, 31, 100, 3, 120, 126, 198, 105, 165, 163, 2, 32, 206]

/-- The 20-byte folded digest after 27 sha1 OTP iterations of the
primed state for seed `correct`, passphrase `OTP's are good`. -/
def SHA1V27 : List Nat :=
  [67, 65, 40, 39, 255, 57, 174, 193, 59, 145, 150, 215, 188, 253, 35, 78, 219, 95, 33, 5]

/-- The 20-byte folded digest after 30 sha1 OTP iterations of the
primed state for seed `correct`, passphrase `OTP's are good`. -/
def SHA1V30 : List Nat :=
  [194, 73, 33, 200, 8, 93, 156, 250, 57, 25, 255, 0, 166, 222, 233, 22, 109, 170, 52, 116]

/-- The 20-byte folded digest after 33 sha1 OTP iterations of the
primed state for seed `correct`, passphrase `OTP's are good`. -/
def SHA1V33 : List Nat :=
  [234, 181, 179, 31, 134, 199, 233, 57, 151, 9, 174, 237, 130, 96, 47, 122, 105, 62, 217, 6]

/-- The 20-byte folded digest after 36 sha1 OTP iterations of the
primed state for seed `correct`, passphrase `OTP's are good`. -/
def SHA1V36 : List Nat :=
  [29, 20, 50, 241, 177, 255, 243, 16, 13, 101, 67, 150, 75, 106, 2, 125, 58, 180, 59, 214]

/-- The 20-byte folded digest after 39 sha1 OTP iterations of the
primed state for seed `correct`, passphrase `OTP's are good`. -/
def SHA1V39 : List Nat :=
  [249, 105, 46, 41, 98, 215, 126, 186, 138, 69, 15, 221, 186, 245, 144, 67, 160, 182, 102, 38]

/-- The 20-byte folded digest after 42 sha1 OTP iterations of the
primed state for seed `correct`, passphrase `OTP's are good`. -/
def SHA1V42 : List Nat :=
  [2, 242, 173, 214, 36, 175, 157, 150, 117, 210, 225, 168, 133, 193, 248, 195, 73, 29, 7, 45]

/-- The 20-byte folded digest after 45 sha1 OTP iterations of the
primed state for seed `correct`, passphrase `OTP's are good`. -/
def SHA1V45 : List Nat :=
  [225, 128, 29, 235, 0, 251, 21, 236, 15, 17, 223, 204, 9, 203, 94, 81, 241, 221, 13, 232]

/-- The 20-byte folded digest after 48 sha1 OTP iterations of the
primed state for seed `correct`, passphrase `OTP's are good`. -/
def SHA1V48 : List Nat :=
  [31, 162, 1, 197, 108, 170, 219, 171, 225, 82, 188, 177, 182, 35, 227, 106, 174, 153, 148, 152]

/-- The 20-byte folded digest after 51 sha1 OTP iterations of the
primed state for seed `correct`, passphrase `OTP's are good`. -/
def SHA1V51 : List Nat :=
  [31, 114, 158, 32, 144, 173, 249, 24, 17, 33, 105, 107, 193, 32, 186, 210, 181, 168, 167, 129]

/-- The 20-byte folded digest after 54 sha1 OTP iterations of the
primed state for seed `correct`, passphrase `OTP's are good`. -/
def SHA1V54 : List Nat :=
  [58, 197, 140, 0, 82, 92, 94, 242, 114, 243, 90, 39, 134, 71, 36, 157, 153, 73, 62, 88]

/-- The 20-byte folded digest after 57 sha1 OTP iterations of the
primed state for seed `correct`, passphrase `OTP's are good`. -/
def SHA1V57 : List Nat :=
  [251, 228, 157, 35, 128, 47, 211, 119, 124, 249, 44, 159, 63, 49, 102, 216, 35, 121, 214, 244]

/-- The 20-byte folded digest after 60 sha1 OTP iterations of the
primed state for seed `correct`, passphrase `OTP's are good`. -/
def SHA1V60 : List Nat :=
  [209, 148, 177, 54, 15, 49, 102, 203, 92, 60, 147, 145, 127, 43, 220, 96, 70, 174, 138, 212]

/-- The 20-byte folded digest after 63 sha1 OTP iterations of the
primed state for seed `correct`, passphrase `OTP's are good`. -/
def SHA1V63 : List Nat :=
  [188, 194, 19, 88, 177, 106, 157, 47, 5, 79, 161, 145, 128, 189, 44, 156, 241, 152, 166, 5]

/-- The 20-byte folded digest after 66 sha1 OTP iterations of the
primed state for seed `correct`, passphrase `OTP's are good`. -/
def SHA1V66 : List Nat :=
  [28, 144, 206, 152, 183, 69, 116, 154, 124, 196, 146, 214, 29, 8, 21, 95, 108, 209, 80, 126]

/-- The 20-byte folded digest after 69 sha1 OTP iterations of the
primed state for seed `correct`, passphrase `OTP's are good`. -/
def SHA1V69 : List Nat :=
  [69, 103, 76, 162, 147, 3, 237, 80, 46, 124, 103, 2, 189, 192, 51, 66, 187, 13, 104, 22]

/-- The 20-byte folded digest after 72 sha1 OTP iterations of the
primed state for seed `correct`, passphrase `OTP's are good`. -/
def SHA1V72 : List Nat :=
  [30, 78, 242, 223, 171, 179, 33, 18, 112, 191, 50, 77, 170, 65, 23, 156, 126, 149, 104, 210]

/-- The 20-byte folded digest after 75 sha1 OTP iterations of the
primed state for seed `correct`, passphrase `OTP's are good`. -/
def SHA1V75 : List Nat :=
  [251, 189, 98, 221, 187, 65, 101, 244, 169, 163, 203, 219, 92, 42, 60, 19, 135, 54, 29, 3]

/-- The 20-byte folded digest after 78 sha1 OTP iterations of the
primed state for seed `correct`, passphrase `OTP's are good`. -/
def SHA1V78 : List Nat :=
  [67, 76, 241, 40, 93, 193, 171, 64, 81, 41, 246, 65, 53, 153, 211, 105, 20, 142, 246, 90]

/-- The 20-byte folded digest after 81 sha1 OTP iterations of the
primed state for seed `correct`, passphrase `OTP's are good`. -/
def SHA1V81 : List Nat :=
  [14, 195, 240, 163, 220, 160, 22, 57, 191, 28, 193, 174, 33, 231, 113, 250, 77, 132, 182, 1]

/-- The 20-byte folded digest after 84 sha1 OTP iterations of the
primed state for seed `correct`, passphrase `OTP's are good`. -/
def SHA1V84 : List Nat :=
  [252, 221, 55, 138, 203, 30, 162, 77, 151, 203, 22, 224, 146, 211, 72, 113, 70, 153, 56, 247]

/-- The 20-byte folded digest after 87 sha1 OTP iterations of the
primed state for seed `correct`, passphrase `OTP's are good`. -/
def SHA1V87 : List Nat :=
  [224, 39, 22, 18, 19, 15, 211, 115, 229, 185, 32, 7, 2, 147, 153, 54, 32, 15, 123, 62]

/-- The 20-byte folded digest after 90 sha1 OTP iterations of the
primed state for seed `correct`, passphrase `OTP's are good`. -/
def SHA1V90 : List Nat :=
  [162, 242, 100, 225, 154, 96, 15, 219, 180, 45, 131, 178, 148, 133, 199, 225, 181, 30, 113, 26]

/-- The 20-byte folded digest after 93 sha1 OTP iterations of the
primed state for seed `correct`, passphrase `OTP's are good`. -/
def SHA1V93 : List Nat :=
  [105, 31, 222, 54, 156, 254, 46, 185, 94, 240, 107, 167, 244, 208, 134, 148, 134, 170, 129, 114]

/-- The 20-byte folded digest after 96 sha1 OTP iterations of the
primed state for seed `correct`, passphrase `OTP's are good`. -/
def SHA1V96 : List Nat :=
  [212, 125, 8, 156, 127, 30, 218, 26, 156, 91, 95, 31, 255, 220, 217, 27, 59, 241, 174, 11]

/-- The 20-byte folded digest after 99 sha1 OTP iterations of the
primed state for seed `correct`, passphrase `OTP's are good`. -/
def SHA1V99 : List Nat :=
  [79, 41, 106, 116, 254, 21, 103, 236, 162, 174, 196, 86, 233, 100, 112, 127, 219, 0, 36, 55]

/-! ## General bitwise lemmas -/

theorem shiftRight_and_distrib (x y k : Nat) : (x &&& y) >>> k = (x >>> k) &&& (y >>> k) := by
  apply Nat.eq_of_testBit_eq
  intro i
  simp [Nat.testBit_shiftRight, Nat.testBit_and]

theorem and_three_eq_mod (x : Nat) : x &&& 3 = x % 4 := by
  have h3 : (3 : Nat) = 2 ^ 2 - 1 := rfl
  have h4 : (4 : Nat) = 2 ^ 2 := rfl
  rw [h3, h4, Nat.and_pow_two_sub_one_eq_mod]

theorem and_shift3 (b k : Nat) : (b &&& (3 <<< k)) >>> k = b / 2 ^ k % 4 := by
  rw [shiftRight_and_distrib, Nat.shiftLeft_shiftRight, and_three_eq_mod,
    Nat.shiftRight_eq_div_pow]

theorem checksum_byte_eq (n : Nat) :
    (n &&& 3) + ((n &&& 12) >>> 2) + ((n &&& 48) >>> 4) + ((n &&& 192) >>> 6) =
      n % 4 + n / 4 % 4 + n / 16 % 4 + n / 64 % 4 := by
  have h12 : (12 : Nat) = 3 <<< 2 := rfl
  have h48 : (48 : Nat) = 3 <<< 4 := rfl
  have h192 : (192 : Nat) = 3 <<< 6 := rfl
  rw [h12, h48, h192, and_shift3, and_shift3, and_shift3, and_three_eq_mod]
  norm_num

/-- C4: the code checksum agrees with the spec formula (sum of the four
2-bit groups of each of the 8 bytes, modulo 4) and always lies in [0, 3]. -/
theorem claim_C4 (v : List Nat) (_hlen : v.length = 8) (_hb : ∀ b ∈ v, b < 256) :
    calculate_checksum v = checksumSpecFn v ∧ calculate_checksum v < 4 := by
  constructor
  · unfold calculate_checksum checksumSpecFn
    rw [and_three_eq_mod]
    have hmap : v.map (fun n =>
        (n &&& 3) + ((n &&& 12) >>> 2) + ((n &&& 48) >>> 4) + ((n &&& 192) >>> 6)) =
        v.map (fun b => b % 4 + b / 4 % 4 + b / 16 % 4 + b / 64 % 4) :=
      List.map_congr_left (fun b _ => checksum_byte_eq b)
    rw [hmap]
  · unfold calculate_checksum
    rw [and_three_eq_mod]
    omega

/-- C4 witness: the checksum claim evaluated at the 8-byte value
9E876134D90499DD. -/
theorem claim_C4_witness :
    calculate_checksum [158, 135, 97, 52, 217, 4, 153, 221] =
        checksumSpecFn [158, 135, 97, 52, 217, 4, 153, 221] ∧
      calculate_checksum [158, 135, 97, 52, 217, 4, 153, 221] < 4 :=
  claim_C4 [158, 135, 97, 52, 217, 4, 153, 221] (by decide) (by decide)

/-! ## ASCII lower-casing -/

theorem toNat_ofNat_valid (n : Nat) (h : n.isValidChar) : (Char.ofNat n).toNat = n := by
  rw [Char.ofNat, dif_pos h]
  rfl

theorem asciiLowerChar_idem (c : Char) : asciiLowerChar (asciiLowerChar c) = asciiLowerChar c := by
  unfold asciiLowerChar
  by_cases h : 65 ≤ c.toNat ∧ c.toNat ≤ 90
  · have hv : (c.toNat + 32).isValidChar := Or.inl (by omega)
    have ht : (Char.ofNat (c.toNat + 32)).toNat = c.toNat + 32 := toNat_ofNat_valid _ hv
    have hQ : ¬(65 ≤ (Char.ofNat (c.toNat + 32)).toNat ∧
        (Char.ofNat (c.toNat + 32)).toNat ≤ 90) := by
      rw [ht]
      omega
    rw [if_pos h, if_neg hQ]
  · simp [h]

theorem cow_to_ascii_lowercase_idem (s : String) :
    cow_to_ascii_lowercase (cow_to_ascii_lowercase s) = cow_to_ascii_lowercase s := by
  unfold cow_to_ascii_lowercase
  have : ((String.mk (s.data.map asciiLowerChar)).data) = s.data.map asciiLowerChar := rfl
  rw [this, List.map_map]
  have : (asciiLowerChar ∘ asciiLowerChar) = asciiLowerChar := by
    funext c
    exact asciiLowerChar_idem c
  rw [this]

/-- C7: the OTP computation lower-cases the seed itself (ASCII-only), so it
is invariant under ASCII lower-casing of the seed, and non-ASCII-uppercase
characters are never altered by the case folding. -/
theorem claim_C7 (hash_alg passphrase seed : String) (count : Nat)
    (provider : Option (String → Option DynDigest)) :
    calculate_otp hash_alg passphrase seed count provider =
        calculate_otp hash_alg passphrase (cow_to_ascii_lowercase seed) count provider ∧
      (∀ c : Char, ¬(65 ≤ c.toNat ∧ c.toNat ≤ 90) → asciiLowerChar c = c) := by
  constructor
  · unfold calculate_otp
    rw [cow_to_ascii_lowercase_idem]
  · intro c h
    unfold asciiLowerChar
    simp [h]

/-- C7 witness: seed-case invariance evaluated at the md5 test vector. -/
theorem claim_C7_witness :
    calculate_otp ("md5") ("This is a test.") ("TeSt") 0 none =
        calculate_otp ("md5") ("This is a test.") (cow_to_ascii_lowercase ("TeSt")) 0 none ∧
      (∀ c : Char, ¬(65 ≤ c.toNat ∧ c.toNat ≤ 90) → asciiLowerChar c = c) :=
  claim_C7 ("md5") ("This is a test.") ("TeSt") 0 none


/-! ## Length preservation -/

theorem fold_md_go_length (n i : Nat) (l : List Nat) : (fold_md_go i n l).length = l.length := by
  induction n generalizing i l with
  | zero => rfl
  | succ n ih => simp [fold_md_go, ih]

theorem fold_md_length (l : List Nat) : (fold_md l).length = l.length := by
  simp [fold_md, fold_md_go_length]

theorem listSwap_length (l : List Nat) (i j : Nat) : (listSwap l i j).length = l.length := by
  simp [listSwap]

theorem fold_sha1_length (l : List Nat) : (fold_sha1 l).length = l.length := by
  simp [fold_sha1, listSwap_length, fold_md_length]

theorem foldl_md5Block_length (bs : List (List Nat)) (st : List Nat) (h : st.length = 4) :
    (bs.foldl md5Block st).length = 4 := by
  induction bs generalizing st with
  | nil => simpa using h
  | cons b bs ih =>
    rw [List.foldl_cons]
    exact ih _ rfl

theorem foldl_md4Block_length (bs : List (List Nat)) (st : List Nat) (h : st.length = 4) :
    (bs.foldl md4Block st).length = 4 := by
  induction bs generalizing st with
  | nil => simpa using h
  | cons b bs ih =>
    rw [List.foldl_cons]
    exact ih _ rfl

theorem foldl_sha1Block_length (bs : List (List Nat)) (st : List Nat) (h : st.length = 5) :
    (bs.foldl sha1Block st).length = 5 := by
  induction bs generalizing st with
  | nil => simpa using h
  | cons b bs ih =>
    rw [List.foldl_cons]
    exact ih _ rfl

theorem flatten_map4_length (f : Nat → List Nat) (hf : ∀ w, (f w).length = 4) (l : List Nat) :
    ((l.map f).flatten).length = 4 * l.length := by
  induction l with
  | nil => rfl
  | cons a l ih =>
    simp only [List.map_cons, List.flatten_cons, List.length_append, ih, hf a, List.length_cons]
    omega

theorem md5Bytes_length (msg : List Nat) : (md5Bytes msg).length = 16 := by
  unfold md5Bytes
  rw [flatten_map4_length leBytes4 (fun w => rfl),
    foldl_md5Block_length _ [0x67452301, 0xefcdab89, 0x98badcfe, 0x10325476] rfl]

theorem md4Bytes_length (msg : List Nat) : (md4Bytes msg).length = 16 := by
  unfold md4Bytes
  rw [flatten_map4_length leBytes4 (fun w => rfl),
    foldl_md4Block_length _ [0x67452301, 0xefcdab89, 0x98badcfe, 0x10325476] rfl]

theorem sha1Bytes_length (msg : List Nat) : (sha1Bytes msg).length = 20 := by
  unfold sha1Bytes
  rw [flatten_map4_length beBytes4 (fun w => rfl),
    foldl_sha1Block_length _ [0x67452301, 0xEFCDAB89, 0x98BADCFE, 0x10325476, 0xC3D2E1F0] rfl]

theorem md5OtpIter_length (n : Nat) (p : List Nat) (h : 8 ≤ p.length) :
    8 ≤ (md5OtpIter n p).length := by
  induction n generalizing p with
  | zero => simpa [md5OtpIter] using h
  | succ n ih =>
    rw [md5OtpIter]
    exact ih _ (by rw [fold_md_length, md5Bytes_length]; omega)

theorem md4OtpIter_length (n : Nat) (p : List Nat) (h : 8 ≤ p.length) :
    8 ≤ (md4OtpIter n p).length := by
  induction n generalizing p with
  | zero => simpa [md4OtpIter] using h
  | succ n ih =>
    rw [md4OtpIter]
    exact ih _ (by rw [fold_md_length, md4Bytes_length]; omega)

theorem sha1OtpIter_length (n : Nat) (p : List Nat) (h : 8 ≤ p.length) :
    8 ≤ (sha1OtpIter n p).length := by
  induction n generalizing p with
  | zero => simpa [sha1OtpIter] using h
  | succ n ih =>
    rw [sha1OtpIter]
    exact ih _ (by rw [fold_sha1_length, sha1Bytes_length]; omega)

theorem writeDigest_length (buf out : List Nat) : (writeDigest buf out).length = buf.length := by
  simp [writeDigest]
  omega

theorem foldSlice_length (sz : Nat) (l : List Nat) : (foldSlice sz l).length = l.length := by
  simp [foldSlice, fold_md_length]
  omega

theorem viaDigestIter_length (hasher : DynDigest) (n : Nat) (p : List Nat) :
    (viaDigestIter hasher n p).length = p.length := by
  induction n generalizing p with
  | zero => rfl
  | succ n ih =>
    rw [viaDigestIter, ih, foldSlice_length, writeDigest_length]

theorem calculate_md4_otp_some (p s : String) (c : Nat) :
    ∃ v, calculate_md4_otp p s c = some v ∧ v.length = 8 := by
  refine ⟨_, rfl, ?_⟩
  rw [List.length_take]
  have h8 : 8 ≤ (md4OtpIter c (fold_md (md4Bytes (strBytes s ++ strBytes p)))).length :=
    md4OtpIter_length _ _ (by rw [fold_md_length, md4Bytes_length]; omega)
  omega

theorem calculate_md5_otp_some (p s : String) (c : Nat) :
    ∃ v, calculate_md5_otp p s c = some v ∧ v.length = 8 := by
  refine ⟨_, rfl, ?_⟩
  rw [List.length_take]
  have h8 : 8 ≤ (md5OtpIter c (fold_md (md5Bytes (strBytes s ++ strBytes p)))).length :=
    md5OtpIter_length _ _ (by rw [fold_md_length, md5Bytes_length]; omega)
  omega

theorem calculate_sha1_otp_some (p s : String) (c : Nat) :
    ∃ v, calculate_sha1_otp p s c = some v ∧ v.length = 8 := by
  refine ⟨_, rfl, ?_⟩
  rw [List.length_take]
  have h8 : 8 ≤ (sha1OtpIter c (fold_sha1 (sha1Bytes (strBytes s ++ strBytes p)))).length :=
    sha1OtpIter_length _ _ (by rw [fold_sha1_length, sha1Bytes_length]; omega)
  omega

theorem calculate_otp_via_digest_length (hasher : DynDigest) (p s : String) (c : Nat) :
    (calculate_otp_via_digest hasher p s c).length = 8 := by
  unfold calculate_otp_via_digest
  rw [List.length_take, viaDigestIter_length, fold_md_length, writeDigest_length]
  simp

/-- C5: `calculate_otp` fails exactly when the algorithm name is neither
`md4`, `md5` nor `sha1` and the optional digest provider does not resolve
it; any successful result is an 8-byte value. -/
theorem claim_C5 (hash_alg passphrase seed : String) (count : Nat)
    (provider : Option (String → Option DynDigest)) :
    (calculate_otp hash_alg passphrase seed count provider = none ↔
        (hash_alg ≠ ("md4") ∧ hash_alg ≠ ("md5") ∧ hash_alg ≠ ("sha1") ∧
          ∀ get_digest, provider = some get_digest → get_digest hash_alg = none)) ∧
      ∀ v, calculate_otp hash_alg passphrase seed count provider = some v → v.length = 8 := by
  unfold calculate_otp
  by_cases h4 : hash_alg = ("md4")
  · obtain ⟨v, hv, hlen⟩ := calculate_md4_otp_some passphrase (cow_to_ascii_lowercase seed) count
    simp only [h4, if_true, ite_true, hv]
    refine ⟨by simp, ?_⟩
    intro w hw
    cases hw
    exact hlen
  · by_cases h5 : hash_alg = ("md5")
    · obtain ⟨v, hv, hlen⟩ :=
        calculate_md5_otp_some passphrase (cow_to_ascii_lowercase seed) count
      simp only [h4, h5, ite_false, ite_true, if_false, if_true, hv]
      refine ⟨by simp [h5], ?_⟩
      intro w hw
      cases hw
      exact hlen
    · by_cases h6 : hash_alg = ("sha1")
      · obtain ⟨v, hv, hlen⟩ :=
          calculate_sha1_otp_some passphrase (cow_to_ascii_lowercase seed) count
        simp only [h4, h5, h6, ite_false, ite_true, if_false, if_true, hv]
        refine ⟨by simp [h6], ?_⟩
        intro w hw
        cases hw
        exact hlen
      · simp only [h4, h5, h6, ite_false, if_false]
        match provider with
        | none =>
          simp [h4, h5, h6]
        | some get_digest =>
          match hg : get_digest hash_alg with
          | none => simp [h4, h5, h6, hg]
          | some d =>
            simp only [hg]
            constructor
            · constructor
              · intro h
                cases h
              · intro hr
                have := hr.2.2.2 get_digest rfl
                rw [hg] at this
                cases this
            · intro v hv
              cases hv
              exact calculate_otp_via_digest_length d passphrase
                (cow_to_ascii_lowercase seed) count

/-- C5 witness: the failure characterization evaluated at a recognized and
at an unrecognized algorithm name. -/
theorem claim_C5_witness :
    ((calculate_otp ("md5") ("x") ("y") 1 none = none ↔
        (("md5" : String) ≠ ("md4") ∧ ("md5" : String) ≠ ("md5") ∧
          ("md5" : String) ≠ ("sha1") ∧
          ∀ get_digest, (none : Option (String → Option DynDigest)) = some get_digest →
            get_digest ("md5") = none)) ∧
      ∀ v, calculate_otp ("md5") ("x") ("y") 1 none = some v → v.length = 8) ∧
    ((calculate_otp ("nope") ("x") ("y") 1 none = none ↔
        (("nope" : String) ≠ ("md4") ∧ ("nope" : String) ≠ ("md5") ∧
          ("nope" : String) ≠ ("sha1") ∧
          ∀ get_digest, (none : Option (String → Option DynDigest)) = some get_digest →
            get_digest ("nope") = none)) ∧
      ∀ v, calculate_otp ("nope") ("x") ("y") 1 none = some v → v.length = 8) :=
  ⟨claim_C5 ("md5") ("x") ("y") 1 none, claim_C5 ("nope") ("x") ("y") 1 none⟩

/-! ## Properties of `position` -/

theorem position_append (p : α → Bool) (l1 l2 : List α) :
    position p (l1 ++ l2) =
      match position p l1 with
      | some i => some i
      | none => (position p l2).map (· + l1.length) := by
  induction l1 with
  | nil => simp [position]
  | cons a l ih =>
    rw [List.cons_append]
    rw [show position p (a :: (l ++ l2)) =
      if p a then some 0 else (position p (l ++ l2)).map (· + 1) from rfl]
    rw [show position p (a :: l) =
      if p a then some 0 else (position p l).map (· + 1) from rfl]
    by_cases h : p a
    · simp [h]
    · rw [if_neg h, if_neg h, ih]
      cases hpl : position p l with
      | some i => simp
      | none =>
        cases hp2 : position p l2 with
        | none => simp
        | some x =>
          simp only [Option.map_none', Option.map_some', Option.map_map, Function.comp,
            List.length_cons, Option.some.injEq]
          omega

theorem position_lt_length (p : α → Bool) (l : List α) (i : Nat)
    (h : position p l = some i) : i < l.length := by
  induction l generalizing i with
  | nil => cases h
  | cons a as ih =>
    rw [position] at h
    by_cases hp : p a
    · rw [if_pos hp] at h
      cases h
      simp
    · rw [if_neg hp] at h
      cases has : position p as with
      | none => rw [has] at h; cases h
      | some j =>
        rw [has] at h
        cases h
        have := ih j has
        simp
        omega

theorem position_isSome_iff (p : α → Bool) (l : List α) :
    (position p l).isSome = true ↔ ∃ x ∈ l, p x = true := by
  induction l with
  | nil => simp [position]
  | cons a as ih =>
    simp only [position]
    by_cases hp : p a
    · rw [if_pos hp]
      simp only [Option.isSome_some, true_iff]
      exact ⟨a, List.mem_cons_self a as, hp⟩
    · rw [if_neg hp]
      rw [Option.isSome_map']
      rw [ih]
      constructor
      · intro hex
        obtain ⟨x, hx, hpx⟩ := hex
        exact ⟨x, List.mem_cons_of_mem a hx, hpx⟩
      · intro hex
        obtain ⟨x, hx, hpx⟩ := hex
        rcases List.mem_cons.mp hx with rfl | hx2
        · exact absurd hpx hp
        · exact ⟨x, hx2, hpx⟩

theorem position_beq_isSome_iff (w : String) (l : List String) :
    (position (fun x => x == w) l).isSome = true ↔ w ∈ l := by
  rw [position_isSome_iff]
  constructor
  · intro ⟨x, hx, hpx⟩
    have : x = w := by simpa using hpx
    rw [this] at hx
    exact hx
  · intro hw
    exact ⟨w, hw, by simp⟩

/-! ## Strict sortedness, `Nodup` of the dictionary -/

theorem sortedStrict_cons (a : Nat) (l : List Nat) (h : sortedStrict (a :: l) = true) :
    sortedStrict l = true ∧ ∀ b ∈ l, a < b := by
  induction l generalizing a with
  | nil => exact ⟨rfl, by simp⟩
  | cons b rest ih =>
    rw [sortedStrict] at h
    rw [Bool.and_eq_true, decide_eq_true_iff] at h
    obtain ⟨hab, hsb⟩ := h
    obtain ⟨hrest, hball⟩ := ih b hsb
    refine ⟨hsb, ?_⟩
    intro x hx
    rcases List.mem_cons.mp hx with rfl | hx
    · exact hab
    · exact Nat.lt_trans hab (hball x hx)

theorem sortedStrict_pairwise (l : List Nat) (h : sortedStrict l = true) :
    l.Pairwise (· < ·) := by
  induction l with
  | nil => exact List.Pairwise.nil
  | cons a as ih =>
    obtain ⟨hs, hall⟩ := sortedStrict_cons a as h
    exact List.Pairwise.cons hall (ih hs)

theorem nodup_of_map_pairwise_lt (f : α → Nat) (l : List α)
    (h : (l.map f).Pairwise (· < ·)) : l.Nodup :=
  List.Nodup.of_map f (h.imp Nat.ne_of_lt)

theorem dict0_sorted : sortedStrict (DICT0.map encWord) = true := by decide

theorem dict1_sorted : sortedStrict (DICT1.map encWord) = true := by decide

theorem dict2_sorted : sortedStrict (DICT2.map encWord) = true := by decide

theorem dict3_sorted : sortedStrict (DICT3.map encWord) = true := by decide

theorem dict0_below : (DICT0.map encWord).all (fun x => decide (x < 1413828096)) = true := by
  decide

theorem dict1_above : (DICT1.map encWord).all (fun x => decide (1413828096 ≤ x)) = true := by
  decide

theorem dict1_below : (DICT1.map encWord).all (fun x => decide (x < 1100690836549)) = true := by
  decide

theorem dict2_above : (DICT2.map encWord).all (fun x => decide (1100690836549 ≤ x)) = true := by
  decide

theorem dict2_below : (DICT2.map encWord).all (fun x => decide (x < 1100809061444)) = true := by
  decide

theorem dict3_above : (DICT3.map encWord).all (fun x => decide (1100809061444 ≤ x)) = true := by
  decide

theorem dict_map_pairwise : (STANDARD_DICTIONARY.map encWord).Pairwise (· < ·) := by
  have p0 := sortedStrict_pairwise _ dict0_sorted
  have p1 := sortedStrict_pairwise _ dict1_sorted
  have p2 := sortedStrict_pairwise _ dict2_sorted
  have p3 := sortedStrict_pairwise _ dict3_sorted
  have b0 := List.all_eq_true.mp dict0_below
  have a1 := List.all_eq_true.mp dict1_above
  have b1 := List.all_eq_true.mp dict1_below
  have a2 := List.all_eq_true.mp dict2_above
  have b2 := List.all_eq_true.mp dict2_below
  have a3 := List.all_eq_true.mp dict3_above
  rw [STANDARD_DICTIONARY, List.map_append, List.map_append, List.map_append]
  rw [List.pairwise_append]
  refine ⟨p0, ?_, ?_⟩
  · rw [List.pairwise_append]
    refine ⟨p1, ?_, ?_⟩
    · rw [List.pairwise_append]
      refine ⟨p2, p3, ?_⟩
      intro x hx y hy
      have hxb := decide_eq_true_iff.mp (b2 x hx)
      have hya := decide_eq_true_iff.mp (a3 y hy)
      omega
    · intro x hx y hy
      have hxb := decide_eq_true_iff.mp (b1 x hx)
      rcases List.mem_append.mp hy with hy | hy
      · have hya := decide_eq_true_iff.mp (a2 y hy)
        omega
      · have hya := decide_eq_true_iff.mp (a3 y hy)
        omega
  · intro x hx y hy
    have hxb := decide_eq_true_iff.mp (b0 x hx)
    rcases List.mem_append.mp hy with hy | hy
    · have hya := decide_eq_true_iff.mp (a1 y hy)
      omega
    · rcases List.mem_append.mp hy with hy | hy
      · have hya := decide_eq_true_iff.mp (a2 y hy)
        omega
      · have hya := decide_eq_true_iff.mp (a3 y hy)
        omega

theorem dict_nodup : STANDARD_DICTIONARY.Nodup :=
  nodup_of_map_pairwise_lt encWord _ dict_map_pairwise

theorem dict0_length : DICT0.length = 512 := by decide

theorem dict1_length : DICT1.length = 512 := by decide

theorem dict2_length : DICT2.length = 512 := by decide

theorem dict3_length : DICT3.length = 512 := by decide

theorem dict_length : STANDARD_DICTIONARY.length = 2048 := by
  rw [STANDARD_DICTIONARY]
  simp only [List.length_append, dict0_length, dict1_length, dict2_length, dict3_length]

/-! ## Looking up a dictionary entry finds its own index -/

theorem position_nodup_get (l : List String) (hnd : l.Nodup) (i : Nat) (h : i < l.length) :
    position (fun x => x == l.get ⟨i, h⟩) l = some i := by
  induction l generalizing i with
  | nil => simp at h
  | cons a as ih =>
    obtain ⟨hnotmem, hnd2⟩ := List.nodup_cons.mp hnd
    match i with
    | 0 =>
      simp [position, List.get_cons_zero]
    | i + 1 =>
      have h2 : i < as.length := by simpa using h
      have hget : (a :: as).get ⟨i + 1, h⟩ = as.get ⟨i, h2⟩ := rfl
      rw [hget]
      simp only [position]
      have hne : (a == as.get ⟨i, h2⟩) = false := by
        rw [beq_eq_false_iff_ne]
        intro heq
        exact hnotmem (heq ▸ List.get_mem as i h2)
      rw [if_neg (by rw [hne]; simp)]
      rw [ih hnd2 i h2]
      rfl


/-! ## Round-trip of the word codec (C1) -/

theorem checksum_lt_four (l : List Nat) : calculate_checksum l < 4 := by
  unfold calculate_checksum
  rw [and_three_eq_mod]
  omega

theorem getD_eq_get (l : List α) (d : α) (i : Nat) (h : i < l.length) :
    l.getD i d = l.get ⟨i, h⟩ := by
  simp [List.getD_eq_getElem?_getD, List.getElem?_eq_getElem h, List.get_eq_getElem]

theorem dict_getD_get (i : Nat) (h : i < 2048) :
    STANDARD_DICTIONARY.getD i ("") =
      STANDARD_DICTIONARY.get ⟨i, Nat.lt_of_lt_of_eq h dict_length.symm⟩ :=
  getD_eq_get _ _ _ _

theorem topBits_eq (r : Nat) (h : r < 18446744073709551616) :
    topBits r = r / 9007199254740992 := by
  unfold topBits
  rw [shiftRight_and_distrib, Nat.shiftLeft_shiftRight]
  have h2047 : (2047 : Nat) = 2 ^ 11 - 1 := rfl
  rw [h2047, Nat.and_pow_two_sub_one_eq_mod, Nat.shiftRight_eq_div_pow]
  have hlt : r / 2 ^ 53 < 2 ^ 11 := by
    have : (2 : Nat) ^ 53 = 9007199254740992 := by norm_num
    rw [this]
    omega
  rw [Nat.mod_eq_of_lt hlt]
  norm_num

theorem shl11_or (a b : Nat) (ha : a < 9007199254740992) (hb : b < 2048) :
    ((a <<< 11) % U64) ||| b = 2048 * a + b := by
  rw [Nat.shiftLeft_eq]
  have h11 : (2 : Nat) ^ 11 = 2048 := by norm_num
  rw [h11]
  have hlt : a * 2048 < 18446744073709551616 := by omega
  rw [show U64 = 18446744073709551616 from rfl, Nat.mod_eq_of_lt hlt, mul_comm]
  have hb2 : b < 2 ^ 11 := by
    rw [h11]
    exact hb
  rw [← h11]
  exact (Nat.mul_add_lt_is_or hb2 a).symm

theorem shl9_or (a b : Nat) (ha : a < 36028797018963968) (hb : b < 512) :
    ((a <<< 9) % U64) ||| b = 512 * a + b := by
  rw [Nat.shiftLeft_eq]
  have h9 : (2 : Nat) ^ 9 = 512 := by norm_num
  rw [h9]
  have hlt : a * 512 < 18446744073709551616 := by omega
  rw [show U64 = 18446744073709551616 from rfl, Nat.mod_eq_of_lt hlt, mul_comm]
  have hb2 : b < 2 ^ 9 := by
    rw [h9]
    exact hb
  rw [← h9]
  exact (Nat.mul_add_lt_is_or hb2 a).symm

theorem list_eight (v : List Nat) (h : v.length = 8) :
    ∃ b0 b1 b2 b3 b4 b5 b6 b7, v = [b0, b1, b2, b3, b4, b5, b6, b7] := by
  rcases v with _ | ⟨b0, _ | ⟨b1, _ | ⟨b2, _ | ⟨b3, _ | ⟨b4, _ | ⟨b5, _ | ⟨b6, _ | ⟨b7, _ | ⟨b8, t⟩⟩⟩⟩⟩⟩⟩⟩⟩ <;>
    simp at h
  exact ⟨b0, b1, b2, b3, b4, b5, b6, b7, rfl⟩

theorem fromBeBytes8_lt (v : List Nat) (h8 : v.length = 8) (hb : ∀ b ∈ v, b < 256) :
    fromBeBytes v < 18446744073709551616 := by
  obtain ⟨b0, b1, b2, b3, b4, b5, b6, b7, rfl⟩ := list_eight v h8
  have h0 : b0 < 256 := hb _ (by simp)
  have h1 : b1 < 256 := hb _ (by simp)
  have h2 : b2 < 256 := hb _ (by simp)
  have h3 : b3 < 256 := hb _ (by simp)
  have h4 : b4 < 256 := hb _ (by simp)
  have h5 : b5 < 256 := hb _ (by simp)
  have h6 : b6 < 256 := hb _ (by simp)
  have h7 : b7 < 256 := hb _ (by simp)
  simp only [fromBeBytes, List.foldl]
  omega

theorem toBeBytes8_fromBeBytes (v : List Nat) (h8 : v.length = 8) (hb : ∀ b ∈ v, b < 256) :
    toBeBytes8 (fromBeBytes v) = v := by
  obtain ⟨b0, b1, b2, b3, b4, b5, b6, b7, rfl⟩ := list_eight v h8
  have h0 : b0 < 256 := hb _ (by simp)
  have h1 : b1 < 256 := hb _ (by simp)
  have h2 : b2 < 256 := hb _ (by simp)
  have h3 : b3 < 256 := hb _ (by simp)
  have h4 : b4 < 256 := hb _ (by simp)
  have h5 : b5 < 256 := hb _ (by simp)
  have h6 : b6 < 256 := hb _ (by simp)
  have h7 : b7 < 256 := hb _ (by simp)
  simp only [fromBeBytes, toBeBytes8, List.foldl, List.cons.injEq, and_true]
  refine ⟨?_, ?_, ?_, ?_, ?_, ?_, ?_, ?_⟩ <;> omega

/-- C1: decoding the six words produced by encoding any 8-byte value
returns exactly that value together with a valid-checksum flag. -/
theorem claim_C1 (v : List Nat) (h8 : v.length = 8) (hb : ∀ b ∈ v, b < 256) :
    decode_word_format_with_std_dict (convert_to_word_format v) = some (v, true) := by
  simp only [convert_to_word_format]
  set n := fromBeBytes v with hn
  have hnlt : n < 18446744073709551616 := by
    rw [hn]
    exact fromBeBytes8_lt v h8 hb
  have s1 : (n <<< 11) % U64 = n * 2048 % 18446744073709551616 := by
    rw [Nat.shiftLeft_eq, show U64 = 18446744073709551616 from rfl,
      show (2 : Nat) ^ 11 = 2048 from by norm_num]
  rw [s1]
  have s2 : ((n * 2048 % 18446744073709551616) <<< 11) % U64 =
      n * 4194304 % 18446744073709551616 := by
    rw [Nat.shiftLeft_eq, show U64 = 18446744073709551616 from rfl,
      show (2 : Nat) ^ 11 = 2048 from by norm_num, Nat.mod_mul_mod, mul_assoc]
    norm_num
  rw [s2]
  have s3 : ((n * 4194304 % 18446744073709551616) <<< 11) % U64 =
      n * 8589934592 % 18446744073709551616 := by
    rw [Nat.shiftLeft_eq, show U64 = 18446744073709551616 from rfl,
      show (2 : Nat) ^ 11 = 2048 from by norm_num, Nat.mod_mul_mod, mul_assoc]
    norm_num
  rw [s3]
  have s4 : ((n * 8589934592 % 18446744073709551616) <<< 11) % U64 =
      n * 17592186044416 % 18446744073709551616 := by
    rw [Nat.shiftLeft_eq, show U64 = 18446744073709551616 from rfl,
      show (2 : Nat) ^ 11 = 2048 from by norm_num, Nat.mod_mul_mod, mul_assoc]
    norm_num
  rw [s4]
  have s5 : ((n * 17592186044416 % 18446744073709551616) <<< 11) % U64 =
      n * 36028797018963968 % 18446744073709551616 := by
    rw [Nat.shiftLeft_eq, show U64 = 18446744073709551616 from rfl,
      show (2 : Nat) ^ 11 = 2048 from by norm_num, Nat.mod_mul_mod, mul_assoc]
    norm_num
  rw [s5]
  have t0 : topBits n = n / 9007199254740992 := topBits_eq n hnlt
  have t1 : topBits (n * 2048 % 18446744073709551616) = n / 4398046511104 % 2048 := by
    rw [topBits_eq _ (Nat.mod_lt _ (by norm_num))]
    omega
  have t2 : topBits (n * 4194304 % 18446744073709551616) = n / 2147483648 % 2048 := by
    rw [topBits_eq _ (Nat.mod_lt _ (by norm_num))]
    omega
  have t3 : topBits (n * 8589934592 % 18446744073709551616) = n / 1048576 % 2048 := by
    rw [topBits_eq _ (Nat.mod_lt _ (by norm_num))]
    omega
  have t4 : topBits (n * 17592186044416 % 18446744073709551616) = n / 512 % 2048 := by
    rw [topBits_eq _ (Nat.mod_lt _ (by norm_num))]
    omega
  have t5 : topBits (n * 36028797018963968 % 18446744073709551616) = n % 512 * 4 := by
    rw [topBits_eq _ (Nat.mod_lt _ (by norm_num))]
    omega
  rw [t0, t1, t2, t3, t4, t5]
  set c := calculate_checksum v with hcs
  have hclt : c < 4 := by
    rw [hcs]
    exact checksum_lt_four v
  have hi0 : n / 9007199254740992 < 2048 := by omega
  have hi1 : n / 4398046511104 % 2048 < 2048 := by omega
  have hi2 : n / 2147483648 % 2048 < 2048 := by omega
  have hi3 : n / 1048576 % 2048 < 2048 := by omega
  have hi4 : n / 512 % 2048 < 2048 := by omega
  have hi5 : n % 512 * 4 + c < 2048 := by omega
  rw [dict_getD_get _ hi0, dict_getD_get _ hi1, dict_getD_get _ hi2, dict_getD_get _ hi3,
    dict_getD_get _ hi4, dict_getD_get _ hi5]
  simp only [decode_word_format_with_std_dict]
  rw [position_nodup_get _ dict_nodup _ (Nat.lt_of_lt_of_eq hi0 dict_length.symm),
    position_nodup_get _ dict_nodup _ (Nat.lt_of_lt_of_eq hi1 dict_length.symm),
    position_nodup_get _ dict_nodup _ (Nat.lt_of_lt_of_eq hi2 dict_length.symm),
    position_nodup_get _ dict_nodup _ (Nat.lt_of_lt_of_eq hi3 dict_length.symm),
    position_nodup_get _ dict_nodup _ (Nat.lt_of_lt_of_eq hi4 dict_length.symm),
    position_nodup_get _ dict_nodup _ (Nat.lt_of_lt_of_eq hi5 dict_length.symm)]
  dsimp only
  have z0 : ((0 <<< 11) % U64) ||| (n / 9007199254740992) = n / 9007199254740992 := by
    simp
  rw [z0]
  have b1 : n / 9007199254740992 < 9007199254740992 := by omega
  rw [shl11_or _ _ b1 hi1]
  have b2 : 2048 * (n / 9007199254740992) + n / 4398046511104 % 2048 <
      9007199254740992 := by omega
  rw [shl11_or _ _ b2 hi2]
  have b3 : 2048 * (2048 * (n / 9007199254740992) + n / 4398046511104 % 2048) +
      n / 2147483648 % 2048 < 9007199254740992 := by omega
  rw [shl11_or _ _ b3 hi3]
  have b4 : 2048 * (2048 * (2048 * (n / 9007199254740992) + n / 4398046511104 % 2048) +
      n / 2147483648 % 2048) + n / 1048576 % 2048 < 9007199254740992 := by omega
  rw [shl11_or _ _ b4 hi4]
  have hdiv : (n % 512 * 4 + c) / 4 = n % 512 := by omega
  have hmod : (n % 512 * 4 + c) % 4 = c := by omega
  rw [hdiv, hmod]
  have b5 : 2048 * (2048 * (2048 * (2048 * (n / 9007199254740992) +
      n / 4398046511104 % 2048) + n / 2147483648 % 2048) + n / 1048576 % 2048) +
      n / 512 % 2048 < 36028797018963968 := by omega
  rw [shl9_or _ _ b5 (by omega : n % 512 < 512)]
  have hacc : 512 * (2048 * (2048 * (2048 * (2048 * (n / 9007199254740992) +
      n / 4398046511104 % 2048) + n / 2147483648 % 2048) + n / 1048576 % 2048) +
      n / 512 % 2048) + n % 512 = n := by omega
  rw [hacc]
  have hbytes : toBeBytes8 n = v := by
    rw [hn]
    exact toBeBytes8_fromBeBytes v h8 hb
  rw [hbytes, ← hcs]
  simp

/-- C1 witness: the round trip evaluated at the md5 test-vector value. -/
theorem claim_C1_witness :
    decode_word_format_with_std_dict
        (convert_to_word_format [158, 135, 97, 52, 217, 4, 153, 221]) =
      some ([158, 135, 97, 52, 217, 4, 153, 221], true) :=
  claim_C1 [158, 135, 97, 52, 217, 4, 153, 221] (by decide) (by decide)

/-! ## Characterization of the fold engine (C3) -/

theorem getD_set_ne (l : List Nat) (p x j : Nat) (h : p ≠ j) :
    (l.set p x).getD j 0 = l.getD j 0 := by
  simp [List.getD_eq_getElem?_getD, List.getElem?_set_ne h]

theorem getD_set_self (l : List Nat) (p x : Nat) (h : p < l.length) :
    (l.set p x).getD p 0 = x := by
  simp [List.getD_eq_getElem?_getD, List.getElem?_set_self h]

theorem xorSlice_set (l : List Nat) (p x k : Nat) (hp : p < 8) :
    ∀ i n, 8 ≤ i → xorSlice (l.set p x) k i n = xorSlice l k i n := by
  intro i n
  induction n generalizing i with
  | zero => intro _; rfl
  | succ n ih =>
    intro hi
    rw [xorSlice, xorSlice]
    rw [getD_set_ne l p x i (by omega)]
    rw [ih (i + 1) (by omega)]

theorem fold_md_go_getD (n : Nat) : ∀ (i : Nat) (l : List Nat), 8 ≤ i → i + n ≤ l.length →
    ∀ k, (fold_md_go i n l).getD k 0 =
      if k < 8 then l.getD k 0 ^^^ xorSlice l k i n else l.getD k 0 := by
  induction n with
  | zero =>
    intro i l hi hlen k
    rw [fold_md_go, xorSlice]
    by_cases hk : k < 8 <;> simp [hk]
  | succ n ih =>
    intro i l hi hlen k
    rw [fold_md_go]
    have hset : (l.set (i % 8) ((l.getD (i % 8) 0) ^^^ (l.getD i 0))).length = l.length :=
      List.length_set l (i % 8) _
    have hih := ih (i + 1) (l.set (i % 8) ((l.getD (i % 8) 0) ^^^ (l.getD i 0)))
      (by omega) (by omega) k
    rw [hih]
    rw [xorSlice_set l (i % 8) _ k (by omega) (i + 1) n (by omega)]
    by_cases hk : k < 8
    · rw [if_pos hk, if_pos hk, xorSlice]
      by_cases hki : i % 8 = k
      · have : (i % 8 == k) = true := by simp [hki]
        rw [this, if_pos rfl]
        rw [← hki, getD_set_self l (i % 8) _ (by omega)]
        rw [hki]
        have hgi : l.getD i 0 = l.getD i 0 := rfl
        rw [← hki] at hk ⊢
        rw [hki, Nat.xor_assoc]
      · have : (i % 8 == k) = false := by simp [hki]
        rw [this, if_neg (by trivial)]
        rw [getD_set_ne l (i % 8) _ k hki]
        rw [Nat.zero_xor]
    · rw [if_neg hk, if_neg hk]
      exact getD_set_ne l (i % 8) _ k (by omega)

theorem fold_md_getD (l : List Nat) (h : 8 ≤ l.length) (k : Nat) :
    (fold_md l).getD k 0 =
      if k < 8 then l.getD k 0 ^^^ xorSlice l k 8 (l.length - 8) else l.getD k 0 := by
  rw [fold_md]
  exact fold_md_go_getD (l.length - 8) 8 l (by omega) (by omega) k

theorem listSwap_getD (l : List Nat) (i j k : Nat) (hi : i < l.length) (hj : j < l.length) :
    (listSwap l i j).getD k 0 =
      if k = j then l.getD i 0 else if k = i then l.getD j 0 else l.getD k 0 := by
  unfold listSwap
  by_cases hkj : k = j
  · rw [if_pos hkj, ← hkj]
    exact getD_set_self _ k _ (by simpa using (hkj ▸ hj))
  · rw [if_neg hkj, getD_set_ne _ j _ k (fun e => hkj e.symm)]
    by_cases hki : k = i
    · rw [if_pos hki, ← hki]
      exact getD_set_self _ k _ (hki ▸ hi)
    · rw [if_neg hki, getD_set_ne _ i _ k (fun e => hki e.symm)]

/-- C3: `fold_md` XOR-accumulates every byte at index `i ≥ 8` into position
`i mod 8`, leaving the first 8 bytes as the cyclic XOR of each residue
class and the rest of the buffer unchanged; `fold_sha1` additionally swaps
the byte pairs (0,3), (1,2), (4,7), (5,6) of the folded 20-byte digest. -/
theorem claim_C3 :
    (∀ buf : List Nat, 8 ≤ buf.length →
      (fold_md buf).length = buf.length ∧
        (∀ k, k < 8 →
          (fold_md buf).getD k 0 = buf.getD k 0 ^^^ xorSlice buf k 8 (buf.length - 8)) ∧
        (∀ k, 8 ≤ k → (fold_md buf).getD k 0 = buf.getD k 0)) ∧
    (∀ digest : List Nat, digest.length = 20 → ∀ k, k < 8 →
      (fold_sha1 digest).getD k 0 =
        (fold_md digest).getD ([3, 2, 1, 0, 7, 6, 5, 4].getD k 0) 0) := by
  constructor
  · intro buf h
    refine ⟨fold_md_length buf, ?_, ?_⟩
    · intro k hk
      rw [fold_md_getD buf h k, if_pos hk]
    · intro k hk
      rw [fold_md_getD buf h k, if_neg (by omega)]
  · intro digest hlen k hk
    unfold fold_sha1
    have hd : (fold_md digest).length = 20 := by rw [fold_md_length, hlen]
    have h1 : (listSwap (fold_md digest) 0 3).length = 20 := by rw [listSwap_length, hd]
    have h2 : (listSwap (listSwap (fold_md digest) 0 3) 1 2).length = 20 := by
      rw [listSwap_length, h1]
    have h3 : (listSwap (listSwap (listSwap (fold_md digest) 0 3) 1 2) 4 7).length = 20 := by
      rw [listSwap_length, h2]
    rw [listSwap_getD _ 5 6 k (by omega) (by omega)]
    rw [listSwap_getD _ 4 7 k (by omega) (by omega),
      listSwap_getD _ 4 7 5 (by omega) (by omega), listSwap_getD _ 4 7 6 (by omega) (by omega)]
    rw [listSwap_getD _ 1 2 k (by omega) (by omega),
      listSwap_getD _ 1 2 4 (by omega) (by omega), listSwap_getD _ 1 2 7 (by omega) (by omega),
      listSwap_getD _ 1 2 5 (by omega) (by omega), listSwap_getD _ 1 2 6 (by omega) (by omega)]
    rw [listSwap_getD _ 0 3 k (by omega) (by omega),
      listSwap_getD _ 0 3 1 (by omega) (by omega), listSwap_getD _ 0 3 2 (by omega) (by omega),
      listSwap_getD _ 0 3 4 (by omega) (by omega), listSwap_getD _ 0 3 7 (by omega) (by omega),
      listSwap_getD _ 0 3 5 (by omega) (by omega), listSwap_getD _ 0 3 6 (by omega) (by omega)]
    interval_cases k <;> simp

/-- C3 witness: the fold characterization at a concrete 20-byte buffer. -/
theorem claim_C3_witness :
    ((fold_md [1, 2, 3, 4, 5, 6, 7, 8, 9, 10, 11, 12, 13, 14, 15, 16, 17, 18, 19, 20]).getD 2 0 =
        [1, 2, 3, 4, 5, 6, 7, 8, 9, 10, 11, 12, 13, 14, 15, 16, 17, 18, 19, 20].getD 2 0 ^^^
          xorSlice [1, 2, 3, 4, 5, 6, 7, 8, 9, 10, 11, 12, 13, 14, 15, 16, 17, 18, 19, 20] 2 8
            ([1, 2, 3, 4, 5, 6, 7, 8, 9, 10, 11, 12, 13, 14, 15, 16, 17, 18, 19, 20].length - 8)) ∧
      (fold_sha1 [1, 2, 3, 4, 5, 6, 7, 8, 9, 10, 11, 12, 13, 14, 15, 16, 17, 18, 19, 20]).getD 0 0 =
        (fold_md [1, 2, 3, 4, 5, 6, 7, 8, 9, 10, 11, 12, 13, 14, 15, 16, 17, 18, 19, 20]).getD
          ([3, 2, 1, 0, 7, 6, 5, 4].getD 0 0) 0 :=
  ⟨(claim_C3.1 [1, 2, 3, 4, 5, 6, 7, 8, 9, 10, 11, 12, 13, 14, 15, 16, 17, 18, 19, 20]
      (by decide)).2.1 2 (by decide),
    claim_C3.2 [1, 2, 3, 4, 5, 6, 7, 8, 9, 10, 11, 12, 13, 14, 15, 16, 17, 18, 19, 20]
      (by decide) 0 (by decide)⟩

/-! ## Decode failure characterization (C6) -/

theorem position_none_not_mem (w : String) (l : List String)
    (h : position (fun x => x == w) l = none) : w ∉ l := by
  intro hm
  have := (position_beq_isSome_iff w l).mpr hm
  rw [h] at this
  cases this

theorem position_some_mem (w : String) (l : List String) (i : Nat)
    (h : position (fun x => x == w) l = some i) : w ∈ l := by
  apply (position_beq_isSome_iff w l).mp
  rw [h]
  rfl

/-- C6: decoding six words fails exactly when some word is missing from the
standard dictionary; when it succeeds, the returned flag compares the
transmitted checksum (the low 2 bits of the sixth word's index) with the
checksum recomputed over the reconstructed bytes, so a mismatch is a
successful decode carrying `false`, never a `none`. -/
theorem claim_C6 (w0 w1 w2 w3 w4 w5 : String) :
    ((decode_word_format_with_std_dict [w0, w1, w2, w3, w4, w5]).isSome = true ↔
      (w0 ∈ STANDARD_DICTIONARY ∧ w1 ∈ STANDARD_DICTIONARY ∧ w2 ∈ STANDARD_DICTIONARY ∧
        w3 ∈ STANDARD_DICTIONARY ∧ w4 ∈ STANDARD_DICTIONARY ∧ w5 ∈ STANDARD_DICTIONARY)) ∧
    ∀ bytes flag,
      decode_word_format_with_std_dict [w0, w1, w2, w3, w4, w5] = some (bytes, flag) →
      ∃ i5, position (fun x => x == w5) STANDARD_DICTIONARY = some i5 ∧
        flag = (i5 % 4 == calculate_checksum bytes) := by
  simp only [decode_word_format_with_std_dict]
  cases h0 : position (fun w => w == w0) STANDARD_DICTIONARY with
  | none =>
    refine ⟨by simp [position_none_not_mem w0 _ h0], by simp⟩
  | some i0 =>
    cases h1 : position (fun w => w == w1) STANDARD_DICTIONARY with
    | none =>
      refine ⟨by simp [position_none_not_mem w1 _ h1], by simp⟩
    | some i1 =>
      cases h2 : position (fun w => w == w2) STANDARD_DICTIONARY with
      | none =>
        refine ⟨by simp [position_none_not_mem w2 _ h2], by simp⟩
      | some i2 =>
        cases h3 : position (fun w => w == w3) STANDARD_DICTIONARY with
        | none =>
          refine ⟨by simp [position_none_not_mem w3 _ h3], by simp⟩
        | some i3 =>
          cases h4 : position (fun w => w == w4) STANDARD_DICTIONARY with
          | none =>
            refine ⟨by simp [position_none_not_mem w4 _ h4], by simp⟩
          | some i4 =>
            cases h5 : position (fun w => w == w5) STANDARD_DICTIONARY with
            | none =>
              refine ⟨by simp [position_none_not_mem w5 _ h5], by simp⟩
            | some i5 =>
              constructor
              · simp only [Option.isSome_some, true_iff]
                exact ⟨position_some_mem w0 _ i0 h0, position_some_mem w1 _ i1 h1,
                  position_some_mem w2 _ i2 h2, position_some_mem w3 _ i3 h3,
                  position_some_mem w4 _ i4 h4, position_some_mem w5 _ i5 h5⟩
              · intro bytes flag heq
                simp only [Option.some.injEq, Prod.mk.injEq] at heq
                obtain ⟨hbytes, hflag⟩ := heq
                exact ⟨i5, rfl, by rw [← hbytes, ← hflag]⟩

/-- C6 witness: instantiated at the sha1 test-vector words, one of which
carries the whole claim through the all-present branch. -/
theorem claim_C6_witness :
    ((decode_word_format_with_std_dict
          [("AURA"), ("ALOE"), ("HURL"), ("WING"), ("BERG"), ("WAIT")]).isSome = true ↔
      (("AURA" : String) ∈ STANDARD_DICTIONARY ∧ ("ALOE" : String) ∈ STANDARD_DICTIONARY ∧
        ("HURL" : String) ∈ STANDARD_DICTIONARY ∧ ("WING" : String) ∈ STANDARD_DICTIONARY ∧
        ("BERG" : String) ∈ STANDARD_DICTIONARY ∧ ("WAIT" : String) ∈ STANDARD_DICTIONARY)) ∧
    ∀ bytes flag,
      decode_word_format_with_std_dict
          [("AURA"), ("ALOE"), ("HURL"), ("WING"), ("BERG"), ("WAIT")] = some (bytes, flag) →
      ∃ i5, position (fun x => x == ("WAIT")) STANDARD_DICTIONARY = some i5 ∧
        flag = (i5 % 4 == calculate_checksum bytes) :=
  claim_C6 ("AURA") ("ALOE") ("HURL") ("WING") ("BERG") ("WAIT")

/-! ## `try_into_bytes` characterization (C10) -/

/-- C10: `HexOrWords::try_into_bytes` returns the stored bytes for a `Hex`
value; for a `Words` span it succeeds exactly when the span splits into six
whitespace tokens that decode against the standard dictionary with a valid
checksum — and in particular a checksum mismatch makes it fail, unlike
`decode_word_format_with_std_dict` itself. -/
theorem claim_C10 :
    (∀ b : List Nat, (HexOrWords.Hex b).try_into_bytes = some b) ∧
    (∀ (w : String) (v : List Nat),
      (HexOrWords.Words w).try_into_bytes = some v ↔
        ∃ t0 t1 t2 t3 t4 t5, split_ascii_whitespace w.data = [t0, t1, t2, t3, t4, t5] ∧
          decode_word_format_with_std_dict [String.mk t0, String.mk t1, String.mk t2,
            String.mk t3, String.mk t4, String.mk t5] = some (v, true)) ∧
    (∀ (w : String) (bytes : List Nat) (t0 t1 t2 t3 t4 t5 : List Char),
      split_ascii_whitespace w.data = [t0, t1, t2, t3, t4, t5] →
      decode_word_format_with_std_dict [String.mk t0, String.mk t1, String.mk t2,
        String.mk t3, String.mk t4, String.mk t5] = some (bytes, false) →
      (HexOrWords.Words w).try_into_bytes = none) := by
  refine ⟨fun b => rfl, ?_, ?_⟩
  · intro w v
    simp only [HexOrWords.try_into_bytes]
    split
    · rename_i t0 t1 t2 t3 t4 t5 heq
      have inj6 : ∀ s0 s1 s2 s3 s4 s5 : List Char,
          split_ascii_whitespace w.data = [s0, s1, s2, s3, s4, s5] →
          s0 = t0 ∧ s1 = t1 ∧ s2 = t2 ∧ s3 = t3 ∧ s4 = t4 ∧ s5 = t5 := by
        intro s0 s1 s2 s3 s4 s5 hsp
        rw [heq] at hsp
        injection hsp with e0 rest
        injection rest with e1 rest
        injection rest with e2 rest
        injection rest with e3 rest
        injection rest with e4 rest
        injection rest with e5 rest
        exact ⟨e0.symm, e1.symm, e2.symm, e3.symm, e4.symm, e5.symm⟩
      cases hdec : decode_word_format_with_std_dict [String.mk t0, String.mk t1, String.mk t2,
          String.mk t3, String.mk t4, String.mk t5] with
      | none =>
        constructor
        · intro h
          cases h
        · intro hex
          obtain ⟨s0, s1, s2, s3, s4, s5, hsp, hdec2⟩ := hex
          obtain ⟨e0, e1, e2, e3, e4, e5⟩ := inj6 s0 s1 s2 s3 s4 s5 hsp
          rw [e0, e1, e2, e3, e4, e5] at hdec2
          rw [hdec2] at hdec
          cases hdec
      | some pr =>
        obtain ⟨vv, valid⟩ := pr
        cases valid with
        | false =>
          simp only [Bool.false_eq_true, if_false, ite_false]
          constructor
          · intro h
            cases h
          · intro hex
            obtain ⟨s0, s1, s2, s3, s4, s5, hsp, hdec2⟩ := hex
            obtain ⟨e0, e1, e2, e3, e4, e5⟩ := inj6 s0 s1 s2 s3 s4 s5 hsp
            rw [e0, e1, e2, e3, e4, e5] at hdec2
            rw [hdec2] at hdec
            injection hdec with hpair
            injection hpair with _ hcontr
            cases hcontr
        | true =>
          simp only [if_true, ite_true]
          constructor
          · intro h
            injection h with h
            exact ⟨t0, t1, t2, t3, t4, t5, heq, by rw [hdec, h]⟩
          · intro hex
            obtain ⟨s0, s1, s2, s3, s4, s5, hsp, hdec2⟩ := hex
            obtain ⟨e0, e1, e2, e3, e4, e5⟩ := inj6 s0 s1 s2 s3 s4 s5 hsp
            rw [e0, e1, e2, e3, e4, e5] at hdec2
            rw [hdec2] at hdec
            injection hdec with hpair
            injection hpair with hv _
            rw [hv]
    · rename_i hne
      constructor
      · intro h
        cases h
      · intro hex
        obtain ⟨s0, s1, s2, s3, s4, s5, hsp, _⟩ := hex
        exact absurd hsp (by intro hcontr; exact hne s0 s1 s2 s3 s4 s5 hcontr)
  · intro w bytes t0 t1 t2 t3 t4 t5 hsp hdec
    simp only [HexOrWords.try_into_bytes, hsp, hdec]
    simp

/-- C10 witness: instantiated at a hex value and at a words span. -/
theorem claim_C10_witness :
    (HexOrWords.Hex [1, 2, 3, 4, 5, 6, 7, 8]).try_into_bytes = some [1, 2, 3, 4, 5, 6, 7, 8] :=
  claim_C10.1 [1, 2, 3, 4, 5, 6, 7, 8]

/-! ## Challenge parsing (C8) -/

theorem utf8EncodeChar_len_pos (c : Char) : 1 ≤ (utf8EncodeChar c).length := by
  unfold utf8EncodeChar
  by_cases h1 : c.toNat < 128
  · simp [h1]
  · by_cases h2 : c.toNat < 2048
    · simp [h1, h2]
    · by_cases h3 : c.toNat < 65536
      · simp [h1, h2, h3]
      · simp [h1, h2, h3]

theorem strBytes_ge_chars (s : String) : s.data.length ≤ (strBytes s).length := by
  unfold strBytes
  induction s.data with
  | nil => simp
  | cons c cs ih =>
    simp only [List.map_cons, List.flatten_cons, List.length_append, List.length_cons]
    have := utf8EncodeChar_len_pos c
    omega

theorem splitAWAux_min (cs : List Char) :
    ∀ acc, 2 * (splitAWAux cs acc).length ≤ cs.length + (if acc.isEmpty then 1 else 2) := by
  induction cs with
  | nil =>
    intro acc
    rw [splitAWAux]
    by_cases h : acc.isEmpty <;> simp [h]
  | cons c cs ih =>
    intro acc
    rw [splitAWAux]
    by_cases hw : isAsciiWs c
    · rw [if_pos hw]
      have hnil := ih []
      simp at hnil
      by_cases ha : acc.isEmpty <;> simp [ha] <;> omega
    · rw [if_neg hw]
      have hcons := ih (c :: acc)
      simp at hcons
      by_cases ha : acc.isEmpty <;> simp [ha] <;> omega

/-- C8: `parse_otp_challenge` rejects strings shorter than 9 characters,
longer than 128 characters, or without the `otp-` prefix, and succeeds
exactly when (within the byte-length bounds and with the prefix) the text
after the prefix has at least three whitespace tokens whose second is a
decimal count, the first and third becoming algorithm and seed and any
trailing tokens being ignored. -/
theorem claim_C8 (s : String) :
    (s.data.length < 9 → parse_otp_challenge s = none) ∧
    (s.data.length > 128 → parse_otp_challenge s = none) ∧
    ((("otp-").data.isPrefixOf s.data) = false → parse_otp_challenge s = none) ∧
    (∀ alg cnt seed, parse_otp_challenge s = some ⟨alg, cnt, seed⟩ ↔
      (9 ≤ utf8Len s ∧ utf8Len s ≤ 128 ∧ (("otp-").data.isPrefixOf s.data) = true ∧
        ∃ t0 t1 t2 rest, split_ascii_whitespace (s.data.drop 4) = t0 :: t1 :: t2 :: rest ∧
          alg = String.mk t0 ∧ from_str_radix_10 t1 = some cnt ∧ seed = String.mk t2)) := by
  have hchars : s.data.length ≤ utf8Len s := strBytes_ge_chars s
  refine ⟨?_, ?_, ?_, ?_⟩
  · intro h9
    unfold parse_otp_challenge
    by_cases hu : utf8Len s < 9
    · rw [if_pos hu]
    · rw [if_neg hu]
      by_cases hu2 : utf8Len s > 128
      · rw [if_pos hu2]
      · rw [if_neg hu2]
        by_cases hp : (("otp-").data.isPrefixOf s.data) = true
        · rw [hp]
          simp only [Bool.not_true, Bool.false_eq_true, if_false, ite_false]
          have hlen4 : (s.data.drop 4).length ≤ 4 := by
            rw [List.length_drop]
            omega
          have hmin := splitAWAux_min (s.data.drop 4) []
          simp only [List.isEmpty_nil, if_true, ite_true] at hmin
          cases hsp : split_ascii_whitespace (s.data.drop 4) with
          | nil => simp
          | cons t0 r0 =>
            cases r0 with
            | nil => simp
            | cons t1 r1 =>
              cases r1 with
              | nil =>
                dsimp only
                cases hfs : from_str_radix_10 t1 <;> simp [hfs]
              | cons t2 r2 =>
                exfalso
                have h3 : 3 ≤ (split_ascii_whitespace (s.data.drop 4)).length := by
                  rw [hsp]
                  simp
                unfold split_ascii_whitespace at h3
                omega
        · have hp2 : (("otp-").data.isPrefixOf s.data) = false := by
            cases hb : ("otp-").data.isPrefixOf s.data
            · rfl
            · exact absurd hb hp
          rw [hp2]
          simp
  · intro h128
    unfold parse_otp_challenge
    by_cases hu : utf8Len s < 9
    · rw [if_pos hu]
    · rw [if_neg hu, if_pos (by omega : utf8Len s > 128)]
  · intro hp
    unfold parse_otp_challenge
    by_cases hu : utf8Len s < 9
    · rw [if_pos hu]
    · rw [if_neg hu]
      by_cases hu2 : utf8Len s > 128
      · rw [if_pos hu2]
      · rw [if_neg hu2, hp]
        simp
  · intro alg cnt seed
    unfold parse_otp_challenge
    by_cases hu : utf8Len s < 9
    · rw [if_pos hu]
      constructor
      · intro h
        cases h
      · intro hr
        omega
    · rw [if_neg hu]
      by_cases hu2 : utf8Len s > 128
      · rw [if_pos hu2]
        constructor
        · intro h
          cases h
        · intro hr
          omega
      · rw [if_neg hu2]
        by_cases hp : (("otp-").data.isPrefixOf s.data) = true
        · rw [if_neg (show ¬((!(("otp-").data.isPrefixOf s.data)) = true) by simp [hp])]
          cases hsp : split_ascii_whitespace (s.data.drop 4) with
          | nil =>
            dsimp only
            constructor
            · intro h
              cases h
            · intro hr
              obtain ⟨_, _, _, t0, t1, t2, rest, hx, _⟩ := hr
              cases hx
          | cons t0 r0 =>
            cases r0 with
            | nil =>
              dsimp only
              constructor
              · intro h
                cases h
              · intro hr
                obtain ⟨_, _, _, t0', t1', t2', rest, hx, _⟩ := hr
                injection hx with _ hx2
                cases hx2
            | cons t1 r1 =>
              dsimp only
              cases hfs : from_str_radix_10 t1 with
              | none =>
                dsimp only
                constructor
                · intro h
                  cases h
                · intro hr
                  obtain ⟨_, _, _, t0', t1', t2', rest, hx, _, hfs2, _⟩ := hr
                  injection hx with e0 hx2
                  injection hx2 with e1 hx3
                  rw [← e1] at hfs2
                  rw [hfs2] at hfs
                  cases hfs
              | some cnt2 =>
                dsimp only
                cases r1 with
                | nil =>
                  dsimp only
                  constructor
                  · intro h
                    cases h
                  · intro hr
                    obtain ⟨_, _, _, t0', t1', t2', rest, hx, _⟩ := hr
                    injection hx with _ hx2
                    injection hx2 with _ hx3
                    cases hx3
                | cons t2 r2 =>
                  dsimp only
                  constructor
                  · intro h
                    injection h with h
                    have halg : String.mk t0 = alg := congrArg OTPChallenge.hash_alg h
                    have hcnt : cnt2 = cnt := congrArg OTPChallenge.hash_count h
                    have hseed : String.mk t2 = seed := congrArg OTPChallenge.seed h
                    exact ⟨by omega, by omega, hp, t0, t1, t2, r2, rfl, halg.symm,
                      by rw [hfs, hcnt], hseed.symm⟩
                  · intro hr
                    obtain ⟨_, _, _, t0', t1', t2', rest, hx, halg, hfs2, hseed⟩ := hr
                    injection hx with e0 hx2
                    injection hx2 with e1 hx3
                    injection hx3 with e2 _
                    rw [← e1] at hfs2
                    rw [hfs2] at hfs
                    injection hfs with hc
                    rw [halg, hseed, ← e0, ← e2, hc]
        · have hp2 : (("otp-").data.isPrefixOf s.data) = false := by
            cases hb : ("otp-").data.isPrefixOf s.data
            · rfl
            · exact absurd hb hp
          rw [hp2]
          simp only [Bool.not_false, if_true, ite_true]
          constructor
          · intro h
            cases h
          · intro hr
            obtain ⟨_, _, hcontr, _⟩ := hr
            cases hcontr

/-- C8 witness: the characterization at the documented example challenge. -/
theorem claim_C8_witness :
    parse_otp_challenge ("otp-md5 487 dog2") = some ⟨("md5"), 487, ("dog2")⟩ ↔
      (9 ≤ utf8Len ("otp-md5 487 dog2") ∧ utf8Len ("otp-md5 487 dog2") ≤ 128 ∧
        ((("otp-").data.isPrefixOf ("otp-md5 487 dog2").data) = true) ∧
        ∃ t0 t1 t2 rest,
          split_ascii_whitespace (("otp-md5 487 dog2").data.drop 4) = t0 :: t1 :: t2 :: rest ∧
            ("md5" : String) = String.mk t0 ∧ from_str_radix_10 t1 = some 487 ∧
            ("dog2" : String) = String.mk t2) :=
  (claim_C8 ("otp-md5 487 dog2")).2.2.2 ("md5") 487 ("dog2")

/-! ## Response length bounds (C9) -/

/-- C9 (amended): `parse_otp_init` rejects exactly outside `(50, 100]`
bytes, and `parse_otp_response` rejects outside `[20, 100]` bytes; the
response parser does not itself enforce the init-specific lower bound. -/
theorem claim_C9 (s : String) :
    (utf8Len s ≤ 50 ∨ utf8Len s > 100 → parse_otp_init s = none) ∧
    (utf8Len s < 20 ∨ utf8Len s > 100 → parse_otp_response s = none) := by
  constructor
  · intro h
    unfold parse_otp_init
    rw [if_pos h]
  · intro h
    unfold parse_otp_response
    rw [if_pos h]

/-- C9 counterexample: a 46-character `init-hex` response (at most 50
characters long) is accepted by `parse_otp_response`, refuting the claim
that parsing it as a response fails whenever the length is at most 50. -/
theorem claim_C9_counterexample :
    utf8Len ("init-hex:aaaaaaaaaaaaaaaa: 1 :bbbbbbbbbbbbbbbb") = 46 ∧
      (parse_otp_response ("init-hex:aaaaaaaaaaaaaaaa: 1 :bbbbbbbbbbbbbbbb")).isSome = true := by
  constructor
  · decide
  · decide

/-- C9 witness: the same 46-character string is rejected by
`parse_otp_init`, and a short string is rejected by `parse_otp_response`. -/
theorem claim_C9_witness :
    parse_otp_init ("init-hex:aaaaaaaaaaaaaaaa: 1 :bbbbbbbbbbbbbbbb") = none ∧
      parse_otp_response ("hex:aa") = none :=
  ⟨(claim_C9 ("init-hex:aaaaaaaaaaaaaaaa: 1 :bbbbbbbbbbbbbbbb")).1 (by decide),
    (claim_C9 ("hex:aa")).2 (by decide)⟩

/-! ## The sha1 published test vector (C2) -/

theorem sha1OtpIter_add (a b : Nat) (p : List Nat) :
    sha1OtpIter (a + b) p = sha1OtpIter b (sha1OtpIter a p) := by
  induction a generalizing p with
  | zero =>
    rw [Nat.zero_add]
    rfl
  | succ a ih =>
    have h1 : a + 1 + b = (a + b) + 1 := by omega
    rw [h1]
    have e1 : sha1OtpIter ((a + b) + 1) p =
        sha1OtpIter (a + b) (fold_sha1 (sha1Bytes (p.take 8))) := rfl
    have e2 : sha1OtpIter (a + 1) p = sha1OtpIter a (fold_sha1 (sha1Bytes (p.take 8))) := rfl
    rw [e1, e2, ih]

theorem sha1_chunk_0 : sha1OtpIter 3 SHA1V0 = SHA1V3 := by decide

theorem sha1_chunk_3 : sha1OtpIter 3 SHA1V3 = SHA1V6 := by decide

theorem sha1_chunk_6 : sha1OtpIter 3 SHA1V6 = SHA1V9 := by decide

theorem sha1_chunk_9 : sha1OtpIter 3 SHA1V9 = SHA1V12 := by decide

theorem sha1_chunk_12 : sha1OtpIter 3 SHA1V12 = SHA1V15 := by decide

theorem sha1_chunk_15 : sha1OtpIter 3 SHA1V15 = SHA1V18 := by decide

theorem sha1_chunk_18 : sha1OtpIter 3 SHA1V18 = SHA1V21 := by decide

theorem sha1_chunk_21 : sha1OtpIter 3 SHA1V21 = SHA1V24 := by decide

theorem sha1_chunk_24 : sha1OtpIter 3 SHA1V24 = SHA1V27 := by decide

theorem sha1_chunk_27 : sha1OtpIter 3 SHA1V27 = SHA1V30 := by decide

theorem sha1_chunk_30 : sha1OtpIter 3 SHA1V30 = SHA1V33 := by decide

theorem sha1_chunk_33 : sha1OtpIter 3 SHA1V33 = SHA1V36 := by decide

theorem sha1_chunk_36 : sha1OtpIter 3 SHA1V36 = SHA1V39 := by decide

theorem sha1_chunk_39 : sha1OtpIter 3 SHA1V39 = SHA1V42 := by decide

theorem sha1_chunk_42 : sha1OtpIter 3 SHA1V42 = SHA1V45 := by decide

theorem sha1_chunk_45 : sha1OtpIter 3 SHA1V45 = SHA1V48 := by decide

theorem sha1_chunk_48 : sha1OtpIter 3 SHA1V48 = SHA1V51 := by decide

theorem sha1_chunk_51 : sha1OtpIter 3 SHA1V51 = SHA1V54 := by decide

theorem sha1_chunk_54 : sha1OtpIter 3 SHA1V54 = SHA1V57 := by decide

theorem sha1_chunk_57 : sha1OtpIter 3 SHA1V57 = SHA1V60 := by decide

theorem sha1_chunk_60 : sha1OtpIter 3 SHA1V60 = SHA1V63 := by decide

theorem sha1_chunk_63 : sha1OtpIter 3 SHA1V63 = SHA1V66 := by decide

theorem sha1_chunk_66 : sha1OtpIter 3 SHA1V66 = SHA1V69 := by decide

theorem sha1_chunk_69 : sha1OtpIter 3 SHA1V69 = SHA1V72 := by decide

theorem sha1_chunk_72 : sha1OtpIter 3 SHA1V72 = SHA1V75 := by decide

theorem sha1_chunk_75 : sha1OtpIter 3 SHA1V75 = SHA1V78 := by decide

theorem sha1_chunk_78 : sha1OtpIter 3 SHA1V78 = SHA1V81 := by decide

theorem sha1_chunk_81 : sha1OtpIter 3 SHA1V81 = SHA1V84 := by decide

theorem sha1_chunk_84 : sha1OtpIter 3 SHA1V84 = SHA1V87 := by decide

theorem sha1_chunk_87 : sha1OtpIter 3 SHA1V87 = SHA1V90 := by decide

theorem sha1_chunk_90 : sha1OtpIter 3 SHA1V90 = SHA1V93 := by decide

theorem sha1_chunk_93 : sha1OtpIter 3 SHA1V93 = SHA1V96 := by decide

theorem sha1_chunk_96 : sha1OtpIter 3 SHA1V96 = SHA1V99 := by decide

/-! ## Chunked dictionary access (keeps each kernel evaluation shallow) -/

theorem dict_getD_chunks (i : Nat) :
    STANDARD_DICTIONARY.getD i ("") =
      if i < 512 then DICT0.getD i ("")
      else if i < 1024 then DICT1.getD (i - 512) ("")
      else if i < 1536 then DICT2.getD (i - 1024) ("")
      else DICT3.getD (i - 1536) ("") := by
  rw [STANDARD_DICTIONARY]
  simp only [List.getD_eq_getElem?_getD]
  by_cases h0 : i < 512
  · rw [if_pos h0, List.getElem?_append_left (show i < DICT0.length by rw [dict0_length]; omega)]
  · rw [if_neg h0,
      List.getElem?_append_right (show DICT0.length ≤ i by rw [dict0_length]; omega),
      dict0_length]
    by_cases h1 : i < 1024
    · rw [if_pos h1,
        List.getElem?_append_left (show i - 512 < DICT1.length by rw [dict1_length]; omega)]
    · rw [if_neg h1,
        List.getElem?_append_right (show DICT1.length ≤ i - 512 by rw [dict1_length]; omega),
        dict1_length]
      by_cases h2 : i < 1536
      · rw [if_pos h2,
          List.getElem?_append_left
            (show i - 512 - 512 < DICT2.length by rw [dict2_length]; omega),
          show i - 512 - 512 = i - 1024 from by omega]
      · rw [if_neg h2,
          List.getElem?_append_right
            (show DICT2.length ≤ i - 512 - 512 by rw [dict2_length]; omega),
          dict2_length, show i - 512 - 512 - 512 = i - 1536 from by omega]

theorem position_dict_chunks (w : String) :
    position (fun x => x == w) STANDARD_DICTIONARY =
      match position (fun x => x == w) DICT0 with
      | some i => some i
      | none =>
        match position (fun x => x == w) DICT1 with
        | some i => some (i + 512)
        | none =>
          match position (fun x => x == w) DICT2 with
          | some i => some (i + 1024)
          | none => (position (fun x => x == w) DICT3).map (fun i => i + 1536) := by
  rw [STANDARD_DICTIONARY, position_append]
  cases h0 : position (fun x => x == w) DICT0 with
  | some i => rfl
  | none =>
    dsimp only
    rw [position_append]
    cases h1 : position (fun x => x == w) DICT1 with
    | some i =>
      dsimp only
      simp only [Option.map_some', dict0_length]
    | none =>
      dsimp only
      rw [position_append]
      cases h2 : position (fun x => x == w) DICT2 with
      | some i =>
        dsimp only
        simp only [Option.map_some', Option.map_map, Function.comp, dict0_length, dict1_length,
          Option.some.injEq]
      | none =>
        dsimp only
        cases h3 : position (fun x => x == w) DICT3 with
        | some i =>
          simp only [Option.map_some', Option.map_map, Function.comp, dict0_length, dict1_length,
            dict2_length, Option.some.injEq]
        | none => simp

/-- C2: the engine reproduces the published test vectors exactly: the md5
vector at count 0 whose word encoding is INCH SEA ANNE LONG AHEM TOUR, and
the sha1 vector at count 99 whose word encoding is AURA ALOE HURL WING
BERG WAIT, those six words decoding back to the same bytes with a valid
checksum. -/
theorem claim_C2 :
    calculate_otp ("md5") ("This is a test.") ("TeSt") 0 none =
        some [0x9E, 0x87, 0x61, 0x34, 0xD9, 0x04, 0x99, 0xDD] ∧
      convert_to_word_format [0x9E, 0x87, 0x61, 0x34, 0xD9, 0x04, 0x99, 0xDD] =
        [("INCH"), ("SEA"), ("ANNE"), ("LONG"), ("AHEM"), ("TOUR")] ∧
      calculate_otp ("sha1") ("OTP's are good") ("correct") 99 none =
        some [0x4F, 0x29, 0x6A, 0x74, 0xFE, 0x15, 0x67, 0xEC] ∧
      convert_to_word_format [0x4F, 0x29, 0x6A, 0x74, 0xFE, 0x15, 0x67, 0xEC] =
        [("AURA"), ("ALOE"), ("HURL"), ("WING"), ("BERG"), ("WAIT")] ∧
      decode_word_format_with_std_dict
          [("AURA"), ("ALOE"), ("HURL"), ("WING"), ("BERG"), ("WAIT")] =
        some ([0x4F, 0x29, 0x6A, 0x74, 0xFE, 0x15, 0x67, 0xEC], true) := by
  refine ⟨?_, ?_, ?_, ?_, ?_⟩
  · decide
  · simp only [convert_to_word_format, dict_getD_chunks]
    decide
  · have hiter : sha1OtpIter 99 SHA1V0 = SHA1V99 := by
      calc sha1OtpIter 99 SHA1V0
          = sha1OtpIter 96 (sha1OtpIter 3 SHA1V0) := sha1OtpIter_add 3 96 SHA1V0
        _ = sha1OtpIter 96 SHA1V3 := congrArg (sha1OtpIter 96) sha1_chunk_0
        _ = sha1OtpIter 93 (sha1OtpIter 3 SHA1V3) := sha1OtpIter_add 3 93 SHA1V3
        _ = sha1OtpIter 93 SHA1V6 := congrArg (sha1OtpIter 93) sha1_chunk_3
        _ = sha1OtpIter 90 (sha1OtpIter 3 SHA1V6) := sha1OtpIter_add 3 90 SHA1V6
        _ = sha1OtpIter 90 SHA1V9 := congrArg (sha1OtpIter 90) sha1_chunk_6
        _ = sha1OtpIter 87 (sha1OtpIter 3 SHA1V9) := sha1OtpIter_add 3 87 SHA1V9
        _ = sha1OtpIter 87 SHA1V12 := congrArg (sha1OtpIter 87) sha1_chunk_9
        _ = sha1OtpIter 84 (sha1OtpIter 3 SHA1V12) := sha1OtpIter_add 3 84 SHA1V12
        _ = sha1OtpIter 84 SHA1V15 := congrArg (sha1OtpIter 84) sha1_chunk_12
        _ = sha1OtpIter 81 (sha1OtpIter 3 SHA1V15) := sha1OtpIter_add 3 81 SHA1V15
        _ = sha1OtpIter 81 SHA1V18 := congrArg (sha1OtpIter 81) sha1_chunk_15
        _ = sha1OtpIter 78 (sha1OtpIter 3 SHA1V18) := sha1OtpIter_add 3 78 SHA1V18
        _ = sha1OtpIter 78 SHA1V21 := congrArg (sha1OtpIter 78) sha1_chunk_18
        _ = sha1OtpIter 75 (sha1OtpIter 3 SHA1V21) := sha1OtpIter_add 3 75 SHA1V21
        _ = sha1OtpIter 75 SHA1V24 := congrArg (sha1OtpIter 75) sha1_chunk_21
        _ = sha1OtpIter 72 (sha1OtpIter 3 SHA1V24) := sha1OtpIter_add 3 72 SHA1V24
        _ = sha1OtpIter 72 SHA1V27 := congrArg (sha1OtpIter 72) sha1_chunk_24
        _ = sha1OtpIter 69 (sha1OtpIter 3 SHA1V27) := sha1OtpIter_add 3 69 SHA1V27
        _ = sha1OtpIter 69 SHA1V30 := congrArg (sha1OtpIter 69) sha1_chunk_27
        _ = sha1OtpIter 66 (sha1OtpIter 3 SHA1V30) := sha1OtpIter_add 3 66 SHA1V30
        _ = sha1OtpIter 66 SHA1V33 := congrArg (sha1OtpIter 66) sha1_chunk_30
        _ = sha1OtpIter 63 (sha1OtpIter 3 SHA1V33) := sha1OtpIter_add 3 63 SHA1V33
        _ = sha1OtpIter 63 SHA1V36 := congrArg (sha1OtpIter 63) sha1_chunk_33
        _ = sha1OtpIter 60 (sha1OtpIter 3 SHA1V36) := sha1OtpIter_add 3 60 SHA1V36
        _ = sha1OtpIter 60 SHA1V39 := congrArg (sha1OtpIter 60) sha1_chunk_36
        _ = sha1OtpIter 57 (sha1OtpIter 3 SHA1V39) := sha1OtpIter_add 3 57 SHA1V39
        _ = sha1OtpIter 57 SHA1V42 := congrArg (sha1OtpIter 57) sha1_chunk_39
        _ = sha1OtpIter 54 (sha1OtpIter 3 SHA1V42) := sha1OtpIter_add 3 54 SHA1V42
        _ = sha1OtpIter 54 SHA1V45 := congrArg (sha1OtpIter 54) sha1_chunk_42
        _ = sha1OtpIter 51 (sha1OtpIter 3 SHA1V45) := sha1OtpIter_add 3 51 SHA1V45
        _ = sha1OtpIter 51 SHA1V48 := congrArg (sha1OtpIter 51) sha1_chunk_45
        _ = sha1OtpIter 48 (sha1OtpIter 3 SHA1V48) := sha1OtpIter_add 3 48 SHA1V48
        _ = sha1OtpIter 48 SHA1V51 := congrArg (sha1OtpIter 48) sha1_chunk_48
        _ = sha1OtpIter 45 (sha1OtpIter 3 SHA1V51) := sha1OtpIter_add 3 45 SHA1V51
        _ = sha1OtpIter 45 SHA1V54 := congrArg (sha1OtpIter 45) sha1_chunk_51
        _ = sha1OtpIter 42 (sha1OtpIter 3 SHA1V54) := sha1OtpIter_add 3 42 SHA1V54
        _ = sha1OtpIter 42 SHA1V57 := congrArg (sha1OtpIter 42) sha1_chunk_54
        _ = sha1OtpIter 39 (sha1OtpIter 3 SHA1V57) := sha1OtpIter_add 3 39 SHA1V57
        _ = sha1OtpIter 39 SHA1V60 := congrArg (sha1OtpIter 39) sha1_chunk_57
        _ = sha1OtpIter 36 (sha1OtpIter 3 SHA1V60) := sha1OtpIter_add 3 36 SHA1V60
        _ = sha1OtpIter 36 SHA1V63 := congrArg (sha1OtpIter 36) sha1_chunk_60
        _ = sha1OtpIter 33 (sha1OtpIter 3 SHA1V63) := sha1OtpIter_add 3 33 SHA1V63
        _ = sha1OtpIter 33 SHA1V66 := congrArg (sha1OtpIter 33) sha1_chunk_63
        _ = sha1OtpIter 30 (sha1OtpIter 3 SHA1V66) := sha1OtpIter_add 3 30 SHA1V66
        _ = sha1OtpIter 30 SHA1V69 := congrArg (sha1OtpIter 30) sha1_chunk_66
        _ = sha1OtpIter 27 (sha1OtpIter 3 SHA1V69) := sha1OtpIter_add 3 27 SHA1V69
        _ = sha1OtpIter 27 SHA1V72 := congrArg (sha1OtpIter 27) sha1_chunk_69
        _ = sha1OtpIter 24 (sha1OtpIter 3 SHA1V72) := sha1OtpIter_add 3 24 SHA1V72
        _ = sha1OtpIter 24 SHA1V75 := congrArg (sha1OtpIter 24) sha1_chunk_72
        _ = sha1OtpIter 21 (sha1OtpIter 3 SHA1V75) := sha1OtpIter_add 3 21 SHA1V75
        _ = sha1OtpIter 21 SHA1V78 := congrArg (sha1OtpIter 21) sha1_chunk_75
        _ = sha1OtpIter 18 (sha1OtpIter 3 SHA1V78) := sha1OtpIter_add 3 18 SHA1V78
        _ = sha1OtpIter 18 SHA1V81 := congrArg (sha1OtpIter 18) sha1_chunk_78
        _ = sha1OtpIter 15 (sha1OtpIter 3 SHA1V81) := sha1OtpIter_add 3 15 SHA1V81
        _ = sha1OtpIter 15 SHA1V84 := congrArg (sha1OtpIter 15) sha1_chunk_81
        _ = sha1OtpIter 12 (sha1OtpIter 3 SHA1V84) := sha1OtpIter_add 3 12 SHA1V84
        _ = sha1OtpIter 12 SHA1V87 := congrArg (sha1OtpIter 12) sha1_chunk_84
        _ = sha1OtpIter 9 (sha1OtpIter 3 SHA1V87) := sha1OtpIter_add 3 9 SHA1V87
        _ = sha1OtpIter 9 SHA1V90 := congrArg (sha1OtpIter 9) sha1_chunk_87
        _ = sha1OtpIter 6 (sha1OtpIter 3 SHA1V90) := sha1OtpIter_add 3 6 SHA1V90
        _ = sha1OtpIter 6 SHA1V93 := congrArg (sha1OtpIter 6) sha1_chunk_90
        _ = sha1OtpIter 3 (sha1OtpIter 3 SHA1V93) := sha1OtpIter_add 3 3 SHA1V93
        _ = sha1OtpIter 3 SHA1V96 := congrArg (sha1OtpIter 3) sha1_chunk_93
        _ = sha1OtpIter 0 (sha1OtpIter 3 SHA1V96) := sha1OtpIter_add 3 0 SHA1V96
        _ = sha1OtpIter 0 SHA1V99 := congrArg (sha1OtpIter 0) sha1_chunk_96
        _ = SHA1V99 := rfl
    have hprime : fold_sha1 (sha1Bytes (strBytes (cow_to_ascii_lowercase ("correct")) ++
        strBytes ("OTP's are good"))) = SHA1V0 := by decide
    have hdisp : calculate_otp ("sha1") ("OTP's are good") ("correct") 99 none =
        calculate_sha1_otp ("OTP's are good") (cow_to_ascii_lowercase ("correct")) 99 := rfl
    rw [hdisp]
    simp only [calculate_sha1_otp]
    rw [hprime, hiter]
    decide
  · simp only [convert_to_word_format, dict_getD_chunks]
    decide
  · simp only [decode_word_format_with_std_dict, position_dict_chunks]
    decide
end RFC2289
